import Mathlib

/-!
Verification development for the yggdrasil-runner core: a shallow embedding of
the state deriver (src/chain/state.ts), the decision policy
(src/decision/chainPolicy.ts) and the relevant guard logic of the run loop
(src/runner/chainRunner.ts).

JavaScript numbers are modelled as exact rationals (ℚ); `Math.floor`,
`Math.ceil` and the integer square root used by the on-chain level/greatness
formulas are modelled exactly.  Records indexed by numbers or strings are
modelled as functions into `Option`.  Observability-only fields (the `reason`
strings of actions, log calls) carry no decision logic and are omitted.
-/

namespace Ygg

/-- `Math.floor` on an exact rational. -/
def jsFloor (q : ℚ) : ℚ := (⌊q⌋ : ℤ)

/-- `Math.ceil` on an exact rational. -/
def jsCeil (q : ℚ) : ℚ := (⌈q⌉ : ℤ)

/-- Fuel-driven integer square root: largest `k ≤ fuel` with `k * k ≤ n`.
With `fuel = n` this is `⌊√n⌋`; written by structural recursion so that the
kernel can evaluate it on concrete inputs. -/
def isqrtFuel : ℕ → ℕ → ℕ
  | 0, _ => 0
  | k + 1, n => if (k + 1) * (k + 1) ≤ n then k + 1 else isqrtFuel k n

/-- `⌊√n⌋` for a natural number, mirroring `Math.floor(Math.sqrt(n))` on the
integer inputs the source applies it to. -/
def isqrt (n : ℕ) : ℕ := isqrtFuel n n

/-- Lower a non-negative integral rational to ℕ (used after `Math.floor`). -/
def qToNat (q : ℚ) : ℕ := (⌊q⌋).toNat

/-- chainPolicy.ts `clampInt`: floor then clamp into `[min, max]`. -/
def clampInt (value min max : ℚ) : ℚ :=
  let n := jsFloor value
  if n < min then min else if n > max then max else n

/-- chainPolicy.ts `clampFloat`. -/
def clampFloat (value min max : ℚ) : ℚ :=
  if value < min then min else if value > max then max else value

/-- chainPolicy.ts `lerp`. -/
def lerp (a b t : ℚ) : ℚ := a + (b - a) * t

/-- The dynamically-typed value shapes the chain returns for a numeric field.
`str` values are split by how JavaScript parses them: a hex string `"0x…"`
(parsed via `parseInt(_, 16)` to the natural `n`), a decimal string parsing to
a finite number `q`, or a non-numeric string. -/
inductive RawValue
  | bigintV (i : ℤ)
  | numV (q : ℚ)
  | strHex (n : ℕ)
  | strNum (q : ℚ)
  | strBad
  | nullV
  deriving Repr, DecidableEq

/-- state.ts `toNumber`: tolerant numeric parsing, degrading to `0`. -/
def toNumber : RawValue → ℚ
  | .bigintV i => (i : ℚ)
  | .numV q => q
  | .strHex n => (n : ℚ)
  | .strNum q => q
  | .strBad => 0
  | .nullV => 0

/-- An item as it appears in `DerivedState` (id and accumulated xp). -/
structure Item where
  id : ℚ
  xp : ℚ
  deriving Repr, DecidableEq

/-- The seven adventurer attributes. -/
structure Stats where
  strength : ℚ
  dexterity : ℚ
  vitality : ℚ
  intelligence : ℚ
  wisdom : ℚ
  charisma : ℚ
  luck : ℚ
  deriving Repr, DecidableEq

/-- The active-beast record of `DerivedState` (the `seed` string is
observability-only and omitted). -/
structure Beast where
  id : ℚ
  health : ℚ
  level : ℚ
  isCollectable : Bool
  deriving Repr, DecidableEq

/-- The eight fixed equipment slots. -/
structure Equipment where
  weapon : Option Item
  chest : Option Item
  head : Option Item
  waist : Option Item
  foot : Option Item
  hand : Option Item
  neck : Option Item
  ring : Option Item
  deriving Repr, DecidableEq

/-- Dynamic slot lookup, mirroring `(slots as Record<string, …>)[slot]`. -/
def Equipment.get (e : Equipment) (slot : String) : Option Item :=
  if slot = "weapon" then e.weapon
  else if slot = "chest" then e.chest
  else if slot = "head" then e.head
  else if slot = "waist" then e.waist
  else if slot = "foot" then e.foot
  else if slot = "hand" then e.hand
  else if slot = "neck" then e.neck
  else if slot = "ring" then e.ring
  else none

/-- Dynamic slot update, mirroring `{ ...equipment, [slot]: item }`. -/
def Equipment.set (e : Equipment) (slot : String) (item : Option Item) : Equipment :=
  if slot = "weapon" then { e with weapon := item }
  else if slot = "chest" then { e with chest := item }
  else if slot = "head" then { e with head := item }
  else if slot = "waist" then { e with waist := item }
  else if slot = "foot" then { e with foot := item }
  else if slot = "hand" then { e with hand := item }
  else if slot = "neck" then { e with neck := item }
  else if slot = "ring" then { e with ring := item }
  else e

/-- `Object.values(state.equipment)` in declaration order. -/
def Equipment.values (e : Equipment) : List (Option Item) :=
  [e.weapon, e.chest, e.head, e.waist, e.foot, e.hand, e.neck, e.ring]

/-- `Object.keys` order of the equipment record. -/
def equipmentSlotNames : List String :=
  ["weapon", "chest", "head", "waist", "foot", "hand", "neck", "ring"]

/-- state.ts `DerivedState`. -/
structure DerivedState where
  adventurerId : ℚ
  level : ℚ
  hp : ℚ
  maxHp : ℚ
  hpPct : ℚ
  gold : ℚ
  xp : ℚ
  actionCount : ℚ
  statUpgrades : ℚ
  vrfPending : Bool
  fleeChance : ℚ
  avoidObstacleChance : ℚ
  avoidAmbushChance : ℚ
  stats : Stats
  beast : Beast
  inCombat : Bool
  market : List ℚ
  bagItems : List Item
  equipment : Equipment
  deriving Repr, DecidableEq

/-- The policy section of `RunnerConfig` (config/schema.ts fields the core
reads). `chaTargetRatio` is optional in the schema (`?? 0` at use site). -/
structure PolicyConfig where
  hpBase : ℚ
  hpPerVitality : ℚ
  maxBeastLevelRatio : ℚ
  fleeBelowHpPct : ℚ
  minFleeChance : ℚ
  minHpToFightPct : ℚ
  buyPotionIfBelowPct : ℚ
  exploreTillBeastPct : ℚ
  dexTargetRatio : ℚ
  vitTargetRatio : ℚ
  strTargetRatio : ℚ
  intTargetRatio : ℚ
  wisTargetRatio : ℚ
  chaTargetRatio : Option ℚ
  statUpgradePriority : List String
  equipUpgradeThreshold : ℚ
  targetLevel : ℚ
  equipPotentialBias : ℚ
  equipPotentialWithinBestPct : ℚ
  equipPotentialMaxImmediateDropPct : ℚ
  deriving Repr, DecidableEq

/-- The recovery section of `RunnerConfig`. -/
structure RecoveryConfig where
  staleStateMs : ℚ
  deathCooldownMs : ℚ
  vrfStuckMs : ℚ
  vrfAbandonCooldownMs : ℚ
  deriving Repr, DecidableEq

/-- The pacing fields the step guards read. -/
structure PacingConfig where
  enabled : Bool
  onlyOutOfCombat : Bool
  sleepEnabled : Bool
  deriving Repr, DecidableEq

/-- The session fields the step guards read. -/
structure SessionConfig where
  autoBuyGame : Bool
  deriving Repr, DecidableEq

/-- The slice of `RunnerConfig` consumed by the embedded core. -/
structure RunnerConfig where
  policy : PolicyConfig
  recovery : RecoveryConfig
  pacing : PacingConfig
  session : SessionConfig
  deriving Repr, DecidableEq

/-- The raw adventurer record of a chain snapshot (fields read by
`deriveState`). -/
structure RawStats where
  strength : RawValue
  dexterity : RawValue
  vitality : RawValue
  intelligence : RawValue
  wisdom : RawValue
  charisma : RawValue
  luck : RawValue
  deriving Repr, DecidableEq

/-- A raw item record: `parseItem` reads `.id` and `.xp`; `none` models a
missing/null item. -/
structure RawItem where
  id : RawValue
  xp : RawValue
  deriving Repr, DecidableEq

/-- The raw adventurer record. -/
structure RawAdventurer where
  health : RawValue
  xp : RawValue
  gold : RawValue
  beast_health : RawValue
  action_count : RawValue
  stat_upgrades_available : RawValue
  stats : RawStats
  equipment_weapon : Option RawItem
  equipment_chest : Option RawItem
  equipment_head : Option RawItem
  equipment_waist : Option RawItem
  equipment_foot : Option RawItem
  equipment_hand : Option RawItem
  equipment_neck : Option RawItem
  equipment_ring : Option RawItem
  deriving Repr, DecidableEq

/-- The raw beast record. -/
structure RawBeast where
  id : RawValue
  health : RawValue
  level : RawValue
  is_collectable : Bool
  deriving Repr, DecidableEq

/-- The raw world snapshot (`ChainGameState`): adventurer, beast, bag items
(the `item_*` keys of the bag record, in key order), market list. -/
structure ChainGameState where
  adventurer : RawAdventurer
  beast : RawBeast
  bag : List (Option RawItem)
  market : List RawValue
  deriving Repr, DecidableEq

/-- state.ts `parseItem`: `null` items and items with falsy id parse to
nothing. -/
def parseItem : Option RawItem → Option Item
  | none => none
  | some item =>
    let id := toNumber item.id
    if id = 0 then none else some { id := id, xp := toNumber item.xp }

/-- state.ts `deriveState`: the pure raw-snapshot → `DerivedState`
transform. -/
def deriveState (config : RunnerConfig) (adventurerId : ℚ) (state : ChainGameState) :
    DerivedState :=
  let adv := state.adventurer
  let stats := adv.stats
  let hp := toNumber adv.health
  let xp := toNumber adv.xp
  let liveBeastHealth := toNumber adv.beast_health
  let vitality := toNumber stats.vitality
  let maxHp := config.policy.hpBase + config.policy.hpPerVitality * vitality
  let hpPct := if maxHp > 0 then hp / maxHp else 1
  let level : ℚ := if xp ≤ 0 then 1 else max 1 (isqrt (qToNat xp) : ℚ)
  let fleeChance := min 1 (toNumber stats.dexterity / max 1 level)
  let avoidObstacleChance := min 1 (toNumber stats.intelligence / max 1 level)
  let avoidAmbushChance := min 1 (toNumber stats.wisdom / max 1 level)
  let beast := state.beast
  let beastHealth := if liveBeastHealth > 0 then liveBeastHealth else 0
  let market := (state.market.map toNumber).filter (fun v => v > 0)
  let bagItems := state.bag.filterMap parseItem
  { adventurerId := adventurerId
    level := level
    hp := hp
    maxHp := maxHp
    hpPct := hpPct
    gold := toNumber adv.gold
    xp := xp
    actionCount := toNumber adv.action_count
    statUpgrades := toNumber adv.stat_upgrades_available
    vrfPending := false
    fleeChance := fleeChance
    avoidObstacleChance := avoidObstacleChance
    avoidAmbushChance := avoidAmbushChance
    stats :=
      { strength := toNumber stats.strength
        dexterity := toNumber stats.dexterity
        vitality := toNumber stats.vitality
        intelligence := toNumber stats.intelligence
        wisdom := toNumber stats.wisdom
        charisma := toNumber stats.charisma
        luck := toNumber stats.luck }
    beast :=
      { id := toNumber beast.id
        health := beastHealth
        level := toNumber beast.level
        isCollectable := beast.is_collectable }
    inCombat := liveBeastHealth > 0
    market := market
    bagItems := bagItems
    equipment :=
      { weapon := parseItem adv.equipment_weapon
        chest := parseItem adv.equipment_chest
        head := parseItem adv.equipment_head
        waist := parseItem adv.equipment_waist
        foot := parseItem adv.equipment_foot
        hand := parseItem adv.equipment_hand
        neck := parseItem adv.equipment_neck
        ring := parseItem adv.equipment_ring } }

/-! ## Decision policy (src/decision/chainPolicy.ts) -/

/-- The action kinds the policy can emit. -/
inductive ChainActionType
  | startGame
  | explore
  | attack
  | flee
  | buyPotions
  | buyItems
  | equip
  | selectStats
  | wait
  deriving Repr, DecidableEq

/-- One market purchase entry of a `buyItems` payload. -/
structure BuyItem where
  itemId : ℚ
  equipIt : Bool
  deriving Repr, DecidableEq

/-- Points allocated per stat by `pickStats` (each allocation adds 1). -/
structure StatAlloc where
  strength : ℕ
  dexterity : ℕ
  vitality : ℕ
  intelligence : ℕ
  wisdom : ℕ
  charisma : ℕ
  luck : ℕ
  deriving Repr, DecidableEq

/-- The empty allocation (`baseStats()`). -/
def StatAlloc.zero : StatAlloc :=
  { strength := 0, dexterity := 0, vitality := 0, intelligence := 0,
    wisdom := 0, charisma := 0, luck := 0 }

/-- chainPolicy.ts `allocateStat`: add one point to the named stat.  A name
other than the seven stat keys leaves the tracked stats unchanged (JavaScript
would create an untracked property). -/
def StatAlloc.add (a : StatAlloc) (stat : String) : StatAlloc :=
  if stat = "strength" then { a with strength := a.strength + 1 }
  else if stat = "dexterity" then { a with dexterity := a.dexterity + 1 }
  else if stat = "vitality" then { a with vitality := a.vitality + 1 }
  else if stat = "intelligence" then { a with intelligence := a.intelligence + 1 }
  else if stat = "wisdom" then { a with wisdom := a.wisdom + 1 }
  else if stat = "charisma" then { a with charisma := a.charisma + 1 }
  else if stat = "luck" then { a with luck := a.luck + 1 }
  else a

/-- Total points of an allocation, summed over the seven stats. -/
def StatAlloc.total (a : StatAlloc) : ℕ :=
  a.strength + a.dexterity + a.vitality + a.intelligence + a.wisdom + a.charisma + a.luck

/-- Action payloads (the `payload?` field; `reason` strings are omitted). -/
inductive Payload
  | noPayload
  | statsP (alloc : StatAlloc)
  | potionsP (count : ℚ)
  | buyP (items : List BuyItem) (potions : ℚ)
  | equipP (items : List ℚ)
  | exploreP (tillBeast : Bool)
  deriving Repr, DecidableEq

/-- chainPolicy.ts `ChainAction` (without the observability `reason`). -/
structure ChainAction where
  type : ChainActionType
  payload : Payload
  deriving Repr, DecidableEq

/-- Catalog metadata of one item (`LootMetaMap` entry). -/
structure LootMeta where
  id : ℚ
  tier : ℚ
  slot : String
  itemType : String
  deriving Repr, DecidableEq

/-- `Record<number, LootMeta>`: lookup by item id, `none` for a missing key. -/
def LootMetaMap : Type := ℚ → Option LootMeta

/-- Onchain constants kept inline in chainPolicy.ts. -/
def BASE_POTION_PRICE : ℚ := 1
def MINIMUM_POTION_PRICE : ℚ := 1
def CHARISMA_POTION_DISCOUNT : ℚ := 2
def POTION_HEALTH_AMOUNT : ℚ := 10
def MINIMUM_DAMAGE_TO_BEASTS : ℚ := 4
def MINIMUM_DAMAGE_FROM_BEASTS : ℚ := 2
def TIER_PRICE : ℚ := 4
def MINIMUM_ITEM_PRICE : ℚ := 1
def CHARISMA_ITEM_DISCOUNT : ℚ := 1
def MAX_STAT : ℚ := 31
def ITEM_ID_PENDANT : ℚ := 1
def ITEM_ID_NECKLACE : ℚ := 2
def ITEM_ID_AMULET : ℚ := 3
def ITEM_ID_SILVER_RING : ℚ := 4

/-- chainPolicy.ts `greatnessFromXp`: 1 at zero xp, else `⌊√xp⌋` clamped to
`[1, 20]` (xp first clamped into `[0, 10^6]`). -/
def greatnessFromXp (xp : ℚ) : ℚ :=
  let n := clampInt xp 0 1000000
  if n = 0 then 1 else clampInt (isqrt (qToNat n) : ℚ) 1 20

/-- chainPolicy.ts `tierMultiplier`: T1=5 … T5=1, 0 outside `[1,5]`. -/
def tierMultiplier (tier : ℚ) : ℚ :=
  let t := clampInt tier 0 10
  if t ≤ 0 ∨ t > 5 then 0 else 6 - t

/-- chainPolicy.ts `baseCombatPower`. -/
def baseCombatPower (item : Item) (meta : LootMeta) : ℚ :=
  greatnessFromXp item.xp * tierMultiplier meta.tier

/-- chainPolicy.ts `ringLuckValue`: greatness, doubled for the silver ring. -/
def ringLuckValue (item : Item) : ℚ :=
  let g := greatnessFromXp item.xp
  g + (if item.id = ITEM_ID_SILVER_RING then g else 0)

/-- chainPolicy.ts `neckSupportsArmorType`. -/
def neckSupportsArmorType (neckId : ℚ) (armorType : String) : Bool :=
  if armorType = "magic_or_cloth" then neckId = ITEM_ID_AMULET
  else if armorType = "blade_or_hide" then neckId = ITEM_ID_PENDANT
  else if armorType = "bludgeon_or_metal" then neckId = ITEM_ID_NECKLACE
  else false

/-- chainPolicy.ts `jewelryArmorBonus` (NECKLACE_ARMOR_BONUS = 3). -/
def jewelryArmorBonus (armorBase : ℚ) (neck : Option Item) (armorType : String) : ℚ :=
  match neck with
  | none => 0
  | some n =>
    if neckSupportsArmorType n.id armorType then
      armorBase * greatnessFromXp n.xp * 3 / 100
    else 0

/-- chainPolicy.ts `elementalMultiplier`: weak 0.5, fair 1, strong 1.5. -/
def elementalMultiplier (weaponType armorType : String) : ℚ :=
  if weaponType = "" ∨ weaponType = "none" then 1
  else if armorType = "" ∨ armorType = "none" then 1.5
  else if weaponType = "magic_or_cloth" then
    if armorType = "blade_or_hide" then 0.5
    else if armorType = "bludgeon_or_metal" then 1.5
    else 1
  else if weaponType = "blade_or_hide" then
    if armorType = "magic_or_cloth" then 1.5
    else if armorType = "bludgeon_or_metal" then 0.5
    else 1
  else if weaponType = "bludgeon_or_metal" then
    if armorType = "magic_or_cloth" then 0.5
    else if armorType = "blade_or_hide" then 1.5
    else 1
  else 1

/-- JavaScript `%` for the non-negative operands used here. -/
def jsMod (a b : ℚ) : ℚ := a - b * jsFloor (a / b)

/-- chainPolicy.ts `beastTypeFromId`. -/
def beastTypeFromId (id : ℚ) : String :=
  if 1 ≤ id ∧ id ≤ 25 then "magic_or_cloth"
  else if 26 ≤ id ∧ id ≤ 50 then "blade_or_hide"
  else if 51 ≤ id ∧ id ≤ 75 then "bludgeon_or_metal"
  else "none"

/-- chainPolicy.ts `beastTierFromId`. -/
def beastTierFromId (id : ℚ) : ℚ :=
  if id < 1 ∨ id > 75 then 5
  else
    let index := jsMod (id - 1) 25 + 1
    if index ≤ 5 then 1
    else if index ≤ 10 then 2
    else if index ≤ 15 then 3
    else if index ≤ 20 then 4
    else 5

/-- chainPolicy.ts `estimateAttackDamage`. -/
def estimateAttackDamage (state : DerivedState) (lootMeta : LootMetaMap) : ℚ :=
  match state.equipment.weapon with
  | none => MINIMUM_DAMAGE_TO_BEASTS
  | some weapon =>
    match lootMeta weapon.id with
    | none => MINIMUM_DAMAGE_TO_BEASTS
    | some meta =>
      let beastTier := beastTierFromId state.beast.id
      let beastType := beastTypeFromId state.beast.id
      let baseAttack := baseCombatPower weapon meta
      let elemental := baseAttack * elementalMultiplier meta.itemType beastType
      let strengthFactor := 1 + state.stats.strength / 10
      let critProb := min 1 (max 0 state.stats.luck / 100)
      let totalAttack := elemental * (strengthFactor + critProb)
      let beastArmor := state.beast.level * tierMultiplier beastTier
      max MINIMUM_DAMAGE_TO_BEASTS (jsFloor (totalAttack - beastArmor))

/-- The five armor slots, in the order the source iterates them. -/
def armorSlotNames : List String := ["chest", "head", "waist", "foot", "hand"]

/-- chainPolicy.ts `estimateBeastDamagePerHit`: average expected incoming
damage across the five armor slots. -/
def estimateBeastDamagePerHit (state : DerivedState) (lootMeta : LootMetaMap) : ℚ :=
  let beastTier := beastTierFromId state.beast.id
  let beastType := beastTypeFromId state.beast.id
  let baseAttack := state.beast.level * tierMultiplier beastTier
  let critProb := min 1 (max 0 state.level / 100)
  let neck := state.equipment.neck
  let slotDamage := fun (slot : String) =>
    let armor := state.equipment.get slot
    let armorInfo :=
      match armor with
      | none => ((0 : ℚ), "none")
      | some a =>
        match lootMeta a.id with
        | none => ((0 : ℚ), "none")
        | some meta =>
          (baseCombatPower a meta, if meta.itemType = "" then "none" else meta.itemType)
    let armorBase := armorInfo.1
    let armorType := armorInfo.2
    let elemental := baseAttack * elementalMultiplier beastType armorType
    let totalAttack := elemental * (1 + critProb)
    let dmg := max MINIMUM_DAMAGE_FROM_BEASTS (jsFloor (totalAttack - armorBase))
    let bonus := jewelryArmorBonus armorBase neck armorType
    max MINIMUM_DAMAGE_FROM_BEASTS (jsFloor (dmg - bonus))
  let total := (armorSlotNames.map slotDamage).sum
  max MINIMUM_DAMAGE_FROM_BEASTS (total / armorSlotNames.length)

/-- The record `combatMetrics` returns (the `reason` string is omitted). -/
structure CombatMetrics where
  estHit : ℚ
  estIncoming : ℚ
  turnsToKill : ℚ
  expectedFightDamage : ℚ
  expectedFleeDamage : ℚ
  shouldFlee : Bool
  deriving Repr, DecidableEq

/-- The `turnsToKill` local of `combatMetrics`. -/
def cmTurnsToKill (state : DerivedState) (lootMeta : LootMetaMap) : ℚ :=
  let estHit := estimateAttackDamage state lootMeta
  if estHit > 0 then jsCeil (state.beast.health / estHit) else 99

/-- The `expectedFightDamage` local of `combatMetrics`. -/
def cmExpectedFightDamage (state : DerivedState) (lootMeta : LootMetaMap) : ℚ :=
  estimateBeastDamagePerHit state lootMeta * max 0 (cmTurnsToKill state lootMeta - 1)

/-- The `expectedFleeDamage` local of `combatMetrics`. -/
def cmExpectedFleeDamage (state : DerivedState) (lootMeta : LootMetaMap) : ℚ :=
  (1 - state.fleeChance) * estimateBeastDamagePerHit state lootMeta

/-- The `shouldFlee` if-chain of `combatMetrics`, in priority order. -/
def cmShouldFlee (state : DerivedState) (lootMeta : LootMetaMap)
    (config : RunnerConfig) : Bool :=
  if state.beast.level > max 1 state.level * config.policy.maxBeastLevelRatio ∧
      state.hpPct < 0.9 then
    true
  else if cmTurnsToKill state lootMeta ≥ 7 ∧ state.fleeChance ≥ 0.55 then
    true
  else if cmExpectedFightDamage state lootMeta ≥ state.hp * 0.8 ∧
      state.fleeChance ≥ 0.45 ∧
      cmExpectedFleeDamage state lootMeta < cmExpectedFightDamage state lootMeta then
    true
  else if state.hpPct < config.policy.fleeBelowHpPct then
    decide (state.fleeChance ≥ config.policy.minFleeChance ∨
      state.hpPct < config.policy.fleeBelowHpPct * 0.7)
  else
    false

/-- chainPolicy.ts `combatMetrics`: fight/flee estimation and the four flee
rules, in priority order. -/
def combatMetrics (state : DerivedState) (lootMeta : LootMetaMap) (config : RunnerConfig) :
    CombatMetrics :=
  { estHit := estimateAttackDamage state lootMeta
    estIncoming := estimateBeastDamagePerHit state lootMeta
    turnsToKill := cmTurnsToKill state lootMeta
    expectedFightDamage := cmExpectedFightDamage state lootMeta
    expectedFleeDamage := cmExpectedFleeDamage state lootMeta
    shouldFlee := cmShouldFlee state lootMeta config }

/-- The per-level stat targets computed inside `pickStats`. -/
structure StatTargets where
  dexterity : ℚ
  vitality : ℚ
  charisma : ℚ
  strength : ℚ
  intelligence : ℚ
  wisdom : ℚ
  deriving Repr, DecidableEq

/-- One iteration of the `pickStats` allocation loop: the greedy if-chain,
with the fallback drawing from the configured priority order (a `luck` entry
redirected to `vitality`).  `k` is the number of points already allocated
(`upgrades - remaining` in the source). -/
def pickStatsStep (state : DerivedState) (config : RunnerConfig) (minChar : ℚ)
    (midgame : Bool) (targets : StatTargets) (k : ℕ) (a : StatAlloc) : StatAlloc :=
  if state.stats.charisma + (a.charisma : ℚ) < minChar then a.add "charisma"
  else if state.stats.dexterity + (a.dexterity : ℚ) < targets.dexterity then a.add "dexterity"
  else if state.stats.vitality + (a.vitality : ℚ) < targets.vitality then a.add "vitality"
  else if midgame ∧ state.stats.intelligence + (a.intelligence : ℚ) < targets.intelligence then
    a.add "intelligence"
  else if midgame ∧ state.stats.wisdom + (a.wisdom : ℚ) < targets.wisdom then a.add "wisdom"
  else if state.stats.charisma + (a.charisma : ℚ) < targets.charisma then a.add "charisma"
  else if state.stats.strength + (a.strength : ℚ) < targets.strength then a.add "strength"
  else if ¬midgame ∧ state.stats.intelligence + (a.intelligence : ℚ) < targets.intelligence then
    a.add "intelligence"
  else if ¬midgame ∧ state.stats.wisdom + (a.wisdom : ℚ) < targets.wisdom then a.add "wisdom"
  else
    let order := config.policy.statUpgradePriority
    match order.get? (k % order.length) with
    | some stat => a.add (if stat = "luck" then "vitality" else stat)
    | none => a

/-- The `while (remaining > 0)` loop of `pickStats`, fuelled by the number of
iterations it performs (`⌈upgrades⌉` when positive). -/
def pickStatsLoop (state : DerivedState) (config : RunnerConfig) (minChar : ℚ)
    (midgame : Bool) (targets : StatTargets) :
    ℕ → ℚ → ℕ → StatAlloc → StatAlloc
  | 0, _, _, a => a
  | fuel + 1, remaining, k, a =>
    if remaining > 0 then
      pickStatsLoop state config minChar midgame targets fuel (remaining - 1) (k + 1)
        (pickStatsStep state config minChar midgame targets k a)
    else a

/-- chainPolicy.ts `pickStats`: greedy allocation of `statUpgrades` points. -/
def pickStats (state : DerivedState) (config : RunnerConfig) : StatAlloc :=
  let upgrades := state.statUpgrades
  let level := max 1 state.level
  let midgame := level ≥ 12
  let minCharForCheapPotions := clampInt (jsFloor (level / 2)) 0 MAX_STAT
  let intRatioBase := max 0 config.policy.intTargetRatio
  let wisRatioBase := max 0 config.policy.wisTargetRatio
  let lateIntWisRatio : ℚ := 0.55
  let intWisT := clampFloat ((level - 12) / 18) 0 1
  let intRatio :=
    if midgame then lerp intRatioBase (max intRatioBase lateIntWisRatio) intWisT
    else intRatioBase
  let wisRatio :=
    if midgame then lerp wisRatioBase (max wisRatioBase lateIntWisRatio) intWisT
    else wisRatioBase
  let targets : StatTargets :=
    { dexterity := clampInt (jsCeil (level * config.policy.dexTargetRatio)) 0 MAX_STAT
      vitality := clampInt (jsCeil (level * config.policy.vitTargetRatio)) 0 MAX_STAT
      charisma :=
        clampInt
          (max minCharForCheapPotions
            (jsCeil (level * (config.policy.chaTargetRatio.getD 0)))) 0 MAX_STAT
      strength := clampInt (jsCeil (level * config.policy.strTargetRatio)) 0 MAX_STAT
      intelligence := clampInt (jsCeil (level * intRatio)) 0 MAX_STAT
      wisdom := clampInt (jsCeil (level * wisRatio)) 0 MAX_STAT }
  pickStatsLoop state config minCharForCheapPotions midgame targets
    (⌈upgrades⌉).toNat upgrades 0 StatAlloc.zero

/-- First maximal element under a strict "better" test: models a stable
descending `sort(...)[0]` (ties keep the earlier element). -/
def pickFirstBest {α : Type} (better : α → α → Bool) (l : List α) : Option α :=
  l.foldl
    (fun acc c =>
      match acc with
      | none => some c
      | some b => if better c b then some c else some b)
    none

/-- Keep the first occurrence of each element (models the first-encounter key
order of a JavaScript object built by grouping). -/
def dedupFirst (l : List String) : List String :=
  l.foldl (fun acc x => if x ∈ acc then acc else acc ++ [x]) []

/-- Maximum of a list of rationals (`Math.max(...xs)`, on nonempty input). -/
def listMax : List ℚ → ℚ
  | [] => 0
  | x :: xs => xs.foldl max x

/-- A scored equip candidate of `chooseEquipItems`. -/
structure EquipCandidate where
  item : Item
  meta : LootMeta
  immediate : ℚ
  effective : ℚ
  deriving Repr, DecidableEq

/-- The immediate/effective score `scoreFor` assigns one item in one slot. -/
def scoreFor (potentialBias : ℚ) (item : Item) (meta : LootMeta) (slot : String) : ℚ × ℚ :=
  if slot = "ring" then
    let immediate := ringLuckValue item
    (immediate, immediate)
  else if slot = "neck" then
    let immediate := greatnessFromXp item.xp
    (immediate, immediate)
  else
    let immediate := baseCombatPower item meta
    if potentialBias = 0 then (immediate, immediate)
    else
      let g := greatnessFromXp item.xp
      let remainingG := max 0 (20 - g)
      let tierMult := tierMultiplier meta.tier
      (immediate, immediate + remainingG * tierMult * potentialBias)

/-- chainPolicy.ts `chooseEquipItems` (out-of-combat gear review): best bag
candidate per slot, equipped on a material upgrade or a tier-for-potential
trade. -/
def chooseEquipItems (state : DerivedState) (lootMeta : LootMetaMap)
    (config : RunnerConfig) : List ℚ :=
  let targetLevel := max 1 config.policy.targetLevel
  let remainingLevels := max 0 (targetLevel - max 1 state.level)
  let horizon := min 1 (remainingLevels / targetLevel)
  let potentialBias := max 0 config.policy.equipPotentialBias * horizon
  let withinBestPct := max 0 (min 1 config.policy.equipPotentialWithinBestPct)
  let maxImmediateDropPct := max 0 (min 0.5 config.policy.equipPotentialMaxImmediateDropPct)
  let taggedBag : List EquipCandidate :=
    state.bagItems.filterMap fun item =>
      match lootMeta item.id with
      | none => none
      | some meta =>
        if meta.slot = "" then none
        else
          let s := scoreFor potentialBias item meta meta.slot
          some { item := item, meta := meta, immediate := s.1, effective := s.2 }
  let slotKeys := dedupFirst (taggedBag.map (fun c => c.meta.slot))
  let bestFor := fun (slot : String) =>
    let candidates := taggedBag.filter (fun c => c.meta.slot = slot)
    if slot = "ring" ∨ slot = "neck" ∨ potentialBias = 0 then
      pickFirstBest (fun c b => c.immediate > b.immediate) candidates
    else
      let bestImmediate := listMax (candidates.map (fun c => c.immediate))
      let minImmediate := bestImmediate * (1 - withinBestPct)
      let pool := candidates.filter (fun c => c.immediate ≥ minImmediate)
      let pickFrom := if pool ≠ [] then pool else candidates
      pickFirstBest
        (fun c b =>
          c.effective > b.effective ∨ (c.effective = b.effective ∧ c.immediate > b.immediate))
        pickFrom
  slotKeys.foldl
    (fun toEquip slot =>
      match bestFor slot with
      | none => toEquip
      | some candidate =>
        match state.equipment.get slot with
        | none => toEquip ++ [candidate.item.id]
        | some currentItem =>
          match lootMeta currentItem.id with
          | none => toEquip ++ [candidate.item.id]
          | some currentMeta =>
            let currentScores := scoreFor potentialBias currentItem currentMeta slot
            let upgradeThreshold := 1 + config.policy.equipUpgradeThreshold
            if candidate.immediate > currentScores.1 * upgradeThreshold then
              toEquip ++ [candidate.item.id]
            else if slot ≠ "ring" ∧ slot ≠ "neck" then
              let tierImproves :=
                candidate.meta.tier > 0 ∧ currentMeta.tier > 0 ∧
                  candidate.meta.tier < currentMeta.tier
              let notTooMuchWorse :=
                candidate.immediate ≥ currentScores.1 * (1 - maxImmediateDropPct)
              let effectiveImproves := candidate.effective > currentScores.2 * 1.02
              if tierImproves ∧ notTooMuchWorse ∧ effectiveImproves then
                toEquip ++ [candidate.item.id]
              else toEquip
            else toEquip)
    []

/-- Apply a list of (slot, item) picks over an equipment record
(`{ ...equipment, ...bestArmor }`). -/
def applyPicks (e : Equipment) (picks : List (String × Item)) : Equipment :=
  picks.foldl (fun acc p => acc.set p.1 (some p.2)) e

/-- chainPolicy.ts `chooseCombatEquipItems`: simulate bag swaps slot by slot
against the live beast and keep every strict improvement. -/
def chooseCombatEquipItems (state : DerivedState) (lootMeta : LootMetaMap) :
    List ℚ × Equipment :=
  let bagIds := state.bagItems.map (fun item => item.id)
  let weaponCandidates :=
    (state.bagItems.filter fun item =>
      match lootMeta item.id with
      | some m => m.slot = "weapon"
      | none => false) ++
      (match state.equipment.weapon with
        | some w => [w]
        | none => [])
  let weaponStart := (state.equipment.weapon, estimateAttackDamage state lootMeta)
  let weaponBest :=
    weaponCandidates.foldl
      (fun acc candidate =>
        let altState := { state with equipment := { state.equipment with weapon := some candidate } }
        let hit := estimateAttackDamage altState lootMeta
        if hit > acc.2 then (some candidate, hit) else acc)
      weaponStart
  let bestWeapon := weaponBest.1
  let bestArmor : List (String × Item) :=
    armorSlotNames.foldl
      (fun acc slot =>
        let current := state.equipment.get slot
        let candidates :=
          (state.bagItems.filter fun item =>
            match lootMeta item.id with
            | some m => m.slot = slot
            | none => false) ++
            (match current with
              | some c => [c]
              | none => [])
        let best :=
          candidates.foldl
            (fun (b : Option Item × Option ℚ) candidate =>
              let altState :=
                { state with equipment := state.equipment.set slot (some candidate) }
              let incoming := estimateBeastDamagePerHit altState lootMeta
              match b.2 with
              | none => (some candidate, some incoming)
              | some bestDmg =>
                if incoming < bestDmg then (some candidate, some incoming) else b)
            (current, none)
        match best.1 with
        | some item => acc ++ [(slot, item)]
        | none => acc)
      []
  let neckCandidates :=
    (state.bagItems.filter fun item =>
      match lootMeta item.id with
      | some m => m.slot = "neck"
      | none => false) ++
      (match state.equipment.neck with
        | some n => [n]
        | none => [])
  let neckBase := fun (neck : Option Item) =>
    { applyPicks state.equipment bestArmor with
        weapon := bestWeapon.orElse (fun _ => state.equipment.weapon)
        neck := neck }
  let neckBest :=
    neckCandidates.foldl
      (fun (b : Option Item × Option ℚ) candidate =>
        let altState := { state with equipment := neckBase (some candidate) }
        let incoming := estimateBeastDamagePerHit altState lootMeta
        match b.2 with
        | none => (some candidate, some incoming)
        | some bestIncoming =>
          if incoming < bestIncoming then (some candidate, some incoming) else b)
      (state.equipment.neck, none)
  let bestNeck := neckBest.1
  let desiredEquipment :=
    { applyPicks state.equipment bestArmor with
        weapon := bestWeapon.orElse (fun _ => state.equipment.weapon)
        neck := bestNeck.orElse (fun _ => state.equipment.neck) }
  let toEquip :=
    equipmentSlotNames.foldl
      (fun acc slot =>
        match desiredEquipment.get slot with
        | none => acc
        | some desired =>
          match state.equipment.get slot with
          | some current =>
            if current.id = desired.id then acc
            else if desired.id ∈ bagIds then acc ++ [desired.id] else acc
          | none => if desired.id ∈ bagIds then acc ++ [desired.id] else acc)
      []
  (toEquip, desiredEquipment)

/-- chainPolicy.ts `itemPriceForTier`; `none` models the `Infinity` returned
for a tier outside `[1,5]`. -/
def itemPriceForTier (tier charisma : ℚ) : Option ℚ :=
  let normalizedTier := jsFloor tier
  if normalizedTier < 1 ∨ normalizedTier > 5 then none
  else
    let tm := 6 - normalizedTier
    let base := tm * TIER_PRICE
    let discount := max 0 (jsFloor charisma) * CHARISMA_ITEM_DISCOUNT
    if discount ≥ base then some MINIMUM_ITEM_PRICE
    else some (max MINIMUM_ITEM_PRICE (base - discount))

/-- chainPolicy.ts `potionPrice`. -/
def potionPrice (level charisma : ℚ) : ℚ :=
  let base := max 1 (jsFloor level) * BASE_POTION_PRICE
  let discount := max 0 (jsFloor charisma) * CHARISMA_POTION_DISCOUNT
  if discount ≥ base then MINIMUM_POTION_PRICE
  else max MINIMUM_POTION_PRICE (base - discount)

/-- chainPolicy.ts `marketHealTargetPct`: the potion heal target, raised
toward 0.95 at the floor price and higher levels. -/
def marketHealTargetPct (state : DerivedState) (config : RunnerConfig) (unitPrice : ℚ) : ℚ :=
  let base := clampFloat config.policy.buyPotionIfBelowPct 0 1
  if unitPrice > 1 then base
  else
    let level := max 1 state.level
    if level < 10 then base
    else
      let maxTarget : ℚ := 0.95
      let t := clampFloat ((level - 10) / 20) 0 1
      clampFloat (lerp base maxTarget t) base maxTarget

/-- chainPolicy.ts `potionReserveGold`. -/
def potionReserveGold (state : DerivedState) : ℚ :=
  let unitPrice := potionPrice state.level state.stats.charisma
  let reservePotions := clampInt (jsCeil (state.maxHp * 0.5 / POTION_HEALTH_AMOUNT)) 6 30
  unitPrice * reservePotions

/-- chainPolicy.ts `ownedItemIds` (as a list with membership tests). -/
def ownedItemIds (state : DerivedState) : List ℚ :=
  (state.bagItems.filter (fun item => item.id > 0)).map (fun item => item.id) ++
    (state.equipment.values.filterMap id |>.filter (fun item => item.id > 0)
      |>.map (fun item => item.id))

/-- Add `value` to the entry keyed `t`, appending a new entry when absent
(insertion-ordered record of totals). -/
def upsertTotal (totals : List (String × ℚ)) (t : String) (value : ℚ) :
    List (String × ℚ) :=
  if totals.any (fun e => e.1 = t) then
    totals.map (fun e => if e.1 = t then (e.1, e.2 + value) else e)
  else totals ++ [(t, value)]

/-- chainPolicy.ts `dominantArmorType`: armor damage type with the highest
total equipped power. -/
def dominantArmorType (state : DerivedState) (lootMeta : LootMetaMap) : Option String :=
  let totals :=
    armorSlotNames.foldl
      (fun totals slot =>
        match state.equipment.get slot with
        | none => totals
        | some item =>
          match lootMeta item.id with
          | none => totals
          | some meta =>
            if meta.itemType = "" then totals
            else upsertTotal totals meta.itemType (baseCombatPower item meta))
      []
  (totals.foldl
    (fun (acc : Option String × ℚ) e => if e.2 > acc.2 then (some e.1, e.2) else acc)
    (none, -1)).1

/-- A purchasable market entry (id paired with its catalog metadata). -/
structure MarketEntry where
  id : ℚ
  meta : LootMeta
  deriving Repr, DecidableEq

/-- The armor-upgrade accumulator of market step 4. -/
structure UpgradePick where
  id : ℚ
  slot : String
  tier : ℚ
  currentPower : ℚ
  candidatePower : ℚ
  deriving Repr, DecidableEq

/-- The potion count bought by the market potion step: enough to cross the
heal target in one action, clipped to what the gold can pay for. -/
def potionCount (state : DerivedState) (config : RunnerConfig) : ℚ :=
  let unitPrice := potionPrice state.level state.stats.charisma
  let healTargetPct := marketHealTargetPct state config unitPrice
  let targetHp := jsCeil (healTargetPct * state.maxHp)
  let missingHp := max 0 (targetHp - state.hp)
  let needed := max 1 (jsCeil (missingHp / POTION_HEALTH_AMOUNT))
  let affordable := max 0 (jsFloor (state.gold / unitPrice))
  max 1 (min needed affordable)

/-- The potion purchase step of the market block. -/
def marketPotionAction (state : DerivedState) (config : RunnerConfig) :
    Option ChainAction :=
  if state.hpPct <
      marketHealTargetPct state config (potionPrice state.level state.stats.charisma) then
    if state.hp ≥ state.maxHp then none
    else if state.gold ≥ potionPrice state.level state.stats.charisma then
      if potionCount state config > 0 then
        some ⟨.buyPotions, .potionsP (potionCount state config)⟩
      else none
    else none
  else none

/-- The not-yet-owned, catalogued market entries. -/
def marketEntriesOf (state : DerivedState) (lootMeta : LootMetaMap) :
    List MarketEntry :=
  let owned := ownedItemIds state
  (state.market.filter fun id => id ∉ owned).filterMap fun id =>
    match lootMeta id with
    | none => none
    | some meta => if meta.slot = "" then none else some { id := id, meta := meta }

/-- The `canAfford` affordability test of the market block (price exists,
payable, and the potion gold reserve survives the purchase). -/
def canAffordTier (state : DerivedState) (reserveGold tier : ℚ) : Bool :=
  match itemPriceForTier tier state.stats.charisma with
  | none => false
  | some price => decide (state.gold ≥ price ∧ state.gold - price ≥ reserveGold)

/-- The `buyItems` action purchasing-and-equipping one market item. -/
def buyOne (id : ℚ) : ChainAction :=
  ⟨.buyItems, .buyP [{ itemId := id, equipIt := true }] 0⟩

/-- The weapon-first upgrade step of the market block: the chosen market
weapon, when the purchase heuristics fire. -/
def marketWeaponPick (state : DerivedState) (config : RunnerConfig)
    (lootMeta : LootMetaMap) (marketEntries : List MarketEntry) (reserveGold : ℚ) :
    Option MarketEntry :=
  let canAfford := canAffordTier state reserveGold
  let weaponChoices :=
    (marketEntries.filter fun e => e.meta.slot = "weapon").filter fun e =>
      canAfford e.meta.tier
  if weaponChoices ≠ [] then
    match state.equipment.weapon with
    | none => none
    | some weapon =>
      let currentWeaponMeta := lootMeta weapon.id
      let currentTier := (currentWeaponMeta.map (fun m => m.tier)).getD 5
      let currentGreatness := greatnessFromXp weapon.xp
      match pickFirstBest (fun a b => a.meta.tier < b.meta.tier) weaponChoices with
      | none => none
      | some best =>
        let bestTier := best.meta.tier
        let tierUpgrade := bestTier > 0 ∧ bestTier < currentTier
        let firstMarketWindow := state.actionCount ≤ 5 ∧ currentTier ≥ 4
        let earlyT1Investment :=
          bestTier = 1 ∧ currentTier > 1 ∧ state.level ≤ 12 ∧ currentGreatness ≤ 8
        let currentPower :=
          match currentWeaponMeta with
          | some m => baseCombatPower weapon m
          | none => 0
        let bestPower := tierMultiplier bestTier
        let immediatePowerUpgrade :=
          bestPower > currentPower * (1 + max 0.25 config.policy.equipUpgradeThreshold)
        if tierUpgrade ∧ (firstMarketWindow ∨ earlyT1Investment ∨ immediatePowerUpgrade) then
          some best
        else none
  else none

/-- The empty-armor-slot fill step of the market block (coverage-first): the
chosen entry and its price. -/
def marketFillArmorPick (state : DerivedState)
    (marketEntries : List MarketEntry) (reserveGold : ℚ) :
    Option (MarketEntry × ℚ) :=
  let emptyArmorSlots := armorSlotNames.filter fun slot => state.equipment.get slot = none
  if emptyArmorSlots ≠ [] then
    let candidates :=
      (marketEntries.filter fun e =>
        e.meta.slot ∈ armorSlotNames ∧ e.meta.slot ∈ emptyArmorSlots).filterMap
        fun e =>
          match itemPriceForTier e.meta.tier state.stats.charisma with
          | none => none
          | some price =>
            if price > 0 ∧ state.gold - price ≥ reserveGold then some (e, price)
            else none
    if candidates ≠ [] then
      let minFillPrice := itemPriceForTier 5 state.stats.charisma
      let remainingSlots := max 0 ((emptyArmorSlots.length : ℚ) - 1)
      let coverageReserve :=
        match minFillPrice with
        | some p => if remainingSlots > 0 then p * remainingSlots else 0
        | none => 0
      let coverageSafe :=
        candidates.filter fun c => state.gold - c.2 ≥ reserveGold + coverageReserve
      let pool := if coverageSafe ≠ [] then coverageSafe else candidates
      pickFirstBest
        (fun a b => a.2 < b.2 ∨ (a.2 = b.2 ∧ a.1.meta.tier < b.1.meta.tier)) pool
    else none
  else none

/-- The ring acquisition/upgrade step of the market block: the chosen ring
entry. -/
def marketRingPick (state : DerivedState) (marketEntries : List MarketEntry)
    (reserveGold : ℚ) : Option MarketEntry :=
  let canAfford := canAffordTier state reserveGold
  let owned := ownedItemIds state
  match state.equipment.ring with
  | none =>
    let ringChoices :=
      (marketEntries.filter fun e => e.meta.slot = "ring").filter fun e =>
        canAfford e.meta.tier
    if ringChoices ≠ [] then
      let silver := ringChoices.find? fun e => decide (e.id = ITEM_ID_SILVER_RING)
      match silver with
      | some s => some s
      | none =>
        pickFirstBest
          (fun a b => tierMultiplier a.meta.tier > tierMultiplier b.meta.tier)
          ringChoices
    else none
  | some ring =>
    if ring.id ≠ ITEM_ID_SILVER_RING ∧ ITEM_ID_SILVER_RING ∉ owned then
      marketEntries.find? fun e =>
        decide (e.id = ITEM_ID_SILVER_RING) && decide (e.meta.slot = "ring") &&
          canAfford e.meta.tier
    else none

/-- The neck acquisition step of the market block (dominant-armor-type
synergy preferred): the chosen neck entry. -/
def marketNeckPick (state : DerivedState) (lootMeta : LootMetaMap)
    (marketEntries : List MarketEntry) (reserveGold : ℚ) : Option MarketEntry :=
  let canAfford := canAffordTier state reserveGold
  match state.equipment.neck with
  | some _ => none
  | none =>
    let neckChoices :=
      (marketEntries.filter fun e => e.meta.slot = "neck").filter fun e =>
        canAfford e.meta.tier
    if neckChoices ≠ [] then
      let dominantType := dominantArmorType state lootMeta
      let preferredId : Option ℚ :=
        match dominantType with
        | some t =>
          if t = "magic_or_cloth" then some ITEM_ID_AMULET
          else if t = "blade_or_hide" then some ITEM_ID_PENDANT
          else if t = "bludgeon_or_metal" then some ITEM_ID_NECKLACE
          else none
        | none => none
      let preferred :=
        preferredId.bind fun pid => neckChoices.find? fun e => decide (e.id = pid)
      match preferred with
      | some p => some p
      | none =>
        pickFirstBest
          (fun a b => tierMultiplier a.meta.tier > tierMultiplier b.meta.tier)
          neckChoices
    else none

/-- The opportunistic armor-upgrade step of the market block: the best
qualifying upgrade. -/
def marketUpgradePick (state : DerivedState) (config : RunnerConfig)
    (lootMeta : LootMetaMap) (marketEntries : List MarketEntry) (reserveGold : ℚ) :
    Option UpgradePick :=
  let canAfford := canAffordTier state reserveGold
  let upgradeThreshold := 1 + config.policy.equipUpgradeThreshold
  marketEntries.foldl
    (fun (acc : Option UpgradePick) entry =>
      let slot := entry.meta.slot
      if slot ∉ armorSlotNames then acc
      else if ¬canAfford entry.meta.tier then acc
      else
        let current := state.equipment.get slot
        let currentMeta :=
          match current with
          | some c => lootMeta c.id
          | none => none
        let currentPower :=
          match current, currentMeta with
          | some c, some m => baseCombatPower c m
          | _, _ => 0
        let candidatePower := tierMultiplier entry.meta.tier
        if currentPower = 0 ∨ candidatePower > currentPower * upgradeThreshold then
          let pick : UpgradePick :=
            { id := entry.id, slot := slot, tier := entry.meta.tier,
              currentPower := currentPower, candidatePower := candidatePower }
          match acc with
          | none => some pick
          | some b =>
            if candidatePower - currentPower > b.candidatePower - b.currentPower then
              some pick
            else acc
        else acc)
    none

/-- The `state.market.length > 0` block of `decideChainAction`: potions, then
weapon-first upgrade, empty-armor fill, ring, neck, opportunistic armor
upgrade.  `none` models falling through to the equip/explore tail. -/
def decideMarket (state : DerivedState) (config : RunnerConfig)
    (lootMeta : LootMetaMap) : Option ChainAction :=
  let reserveGold := potionReserveGold state
  let marketEntries := marketEntriesOf state lootMeta
  (marketPotionAction state config).orElse fun _ =>
    (((marketWeaponPick state config lootMeta marketEntries reserveGold).map fun best =>
        buyOne best.id).orElse fun _ =>
      (((marketFillArmorPick state marketEntries reserveGold).map fun best =>
          buyOne best.1.id).orElse fun _ =>
        (((marketRingPick state marketEntries reserveGold).map fun pick =>
            buyOne pick.id).orElse fun _ =>
          (((marketNeckPick state lootMeta marketEntries reserveGold).map fun pick =>
              buyOne pick.id).orElse fun _ =>
            (marketUpgradePick state config lootMeta marketEntries reserveGold).map
              fun best => buyOne best.id))))

/-- The optional mid-combat loadout swap of `decideChainAction`: only when
equip is being considered, the bag is nonempty, hp clears the fight floor,
and the simulated swap materially improves survival. -/
def decideCombatEquip (state : DerivedState) (config : RunnerConfig)
    (lootMeta : LootMetaMap) (considerEquip : Bool) : Option (List ℚ) :=
  if considerEquip ∧ state.bagItems ≠ [] ∧
      state.hpPct ≥ config.policy.minHpToFightPct then
    let picked := chooseCombatEquipItems state lootMeta
    let toEquip := picked.1
    if toEquip ≠ [] ∧ toEquip.length ≤ 8 then
      let altState := { state with equipment := picked.2 }
      let altDamageWithEquip :=
        estimateBeastDamagePerHit altState lootMeta * cmTurnsToKill altState lootMeta
      let currentDamageNoEquip := cmExpectedFightDamage state lootMeta
      let hasHpBuffer :=
        state.hp > estimateBeastDamagePerHit altState lootMeta * 1.2
      let improvesEnough :=
        (¬cmShouldFlee state lootMeta config = true ∧
            altDamageWithEquip < currentDamageNoEquip * 0.85) ∨
          (cmShouldFlee state lootMeta config = true ∧
            ¬cmShouldFlee altState lootMeta config = true ∧
            altDamageWithEquip < state.hp * 0.8)
      if hasHpBuffer ∧ improvesEnough then some toEquip else none
    else none
  else none

/-- The in-combat branch of `decideChainAction`: optional loadout swap, else
flee or attack by `combatMetrics`. -/
def decideCombat (state : DerivedState) (config : RunnerConfig)
    (lootMeta : LootMetaMap) (considerEquip : Bool) : ChainAction :=
  match decideCombatEquip state config lootMeta considerEquip with
  | some items => ⟨.equip, .equipP items⟩
  | none =>
    if cmShouldFlee state lootMeta config then ⟨.flee, .noPayload⟩
    else ⟨.attack, .noPayload⟩

/-- The out-of-combat equip review tail of `decideChainAction`. -/
def decideEquipTail (state : DerivedState) (config : RunnerConfig)
    (lootMeta : LootMetaMap) (considerEquip : Bool) : Option (List ℚ) :=
  if considerEquip ∧ state.bagItems ≠ [] then
    let equipItems := chooseEquipItems state lootMeta config
    if equipItems ≠ [] then some equipItems else none
  else none

/-- The default explore action of `decideChainAction` (chained exploration
only below level 20 and at a comfortable hp fraction). -/
def decideExplore (state : DerivedState) (config : RunnerConfig) : ChainAction :=
  let allowTillBeast := state.level < 20
  let tillBeast := allowTillBeast ∧ state.hpPct ≥ config.policy.exploreTillBeastPct
  ⟨.explore, .exploreP (decide tillBeast)⟩

/-- chainPolicy.ts `decideChainAction`: the full decision cascade.
`considerEquip` is the boolean value of `context.considerEquip !== false`. -/
def decideChainAction (state : DerivedState) (config : RunnerConfig)
    (lootMeta : LootMetaMap) (considerEquip : Bool) : ChainAction :=
  if state.hp ≤ 0 ∧ state.xp = 0 then ⟨.startGame, .noPayload⟩
  else if state.hp ≤ 0 then ⟨.wait, .noPayload⟩
  else if state.inCombat then decideCombat state config lootMeta considerEquip
  else if state.statUpgrades > 0 then
    ⟨.selectStats, .statsP (pickStats state config)⟩
  else
    let marketAction :=
      if state.market.length > 0 then decideMarket state config lootMeta else none
    match marketAction with
    | some a => a
    | none =>
      match decideEquipTail state config lootMeta considerEquip with
      | some items => ⟨.equip, .equipP items⟩
      | none => decideExplore state config

/-! ## Run loop guards (src/runner/chainRunner.ts)

The `ChainRunner` instance fields consulted by one `step` iteration are
modelled as an explicit `RunnerState`; `Date.now()` is the explicit `now`
argument (milliseconds).  Nullable fields are `Option`; `0` timestamps mean
"unset" exactly where the source tests truthiness.  Sampled pacing durations
(`sleepMsFromRange` results) enter through an explicit `PacingOracle`.
External effects (logging, the browser executor, tx submission) are outside
the embedding; the step model returns the classification outcome of the
iteration together with the updated runner state. -/

/-- The runner instance fields read or written by the step guard cascade. -/
structure RunnerState where
  lastXp : Option ℚ
  lastActionCount : Option ℚ
  lastHp : Option ℚ
  awaitingActionCount : Option ℚ
  awaitingActionCountSince : ℚ
  lastStateSyncLogAt : ℚ
  lastProgressAt : ℚ
  lastDeathHandledAt : ℚ
  statUpgradeBlockedUntil : ℚ
  statUpgradeBlockedActionCount : Option ℚ
  marketClosedBlockedUntil : ℚ
  marketClosedBlockedActionCount : Option ℚ
  staleRecoveryAttempts : ℕ
  vrfPendingBlockedUntil : ℚ
  vrfPendingBlockedActionCount : Option ℚ
  vrfPendingAttempts : ℕ
  vrfPendingSince : ℚ
  vrfCircuitBreakUntil : ℚ
  lastVrfWaitLogAt : ℚ
  lastVrfAbandonAt : ℚ
  humanBreakUntil : ℚ
  nextHumanBreakAt : ℚ
  nextSleepBreakAt : ℚ
  deferredHumanBreaks : ℕ
  deriving Repr, DecidableEq

/-- Sampled pacing durations (the `sleepMsFromRange` results a step may
draw); `sleepMsFromRange` never returns a negative value. -/
structure PacingOracle where
  breakIntervalMs : ℚ
  sleepIntervalMs : ℚ
  sleepJitterMs : ℚ
  breakDurationMs : ℚ
  sleepDurationMs : ℚ
  deriving Repr, DecidableEq

/-- chainRunner.ts `clearAwaitingActionCount`. -/
def clearAwaitingActionCount (rs : RunnerState) : RunnerState :=
  { rs with awaitingActionCount := none, awaitingActionCountSince := 0 }

/-- chainRunner.ts `setAwaitingActionCount` (finite expected count). -/
def setAwaitingActionCount (rs : RunnerState) (expectedActionCount now : ℚ) :
    RunnerState :=
  { rs with awaitingActionCount := some expectedActionCount,
            awaitingActionCountSince := now }

/-- chainRunner.ts `clearStatUpgradeBlock`. -/
def clearStatUpgradeBlock (rs : RunnerState) : RunnerState :=
  { rs with statUpgradeBlockedActionCount := none, statUpgradeBlockedUntil := 0 }

/-- chainRunner.ts `blockStatUpgrade`: block for 60 s at this action count. -/
def blockStatUpgrade (rs : RunnerState) (actionCount now : ℚ) : RunnerState :=
  { rs with statUpgradeBlockedActionCount := some actionCount,
            statUpgradeBlockedUntil := now + 60000 }

/-- chainRunner.ts `clearMarketClosedBlock`. -/
def clearMarketClosedBlock (rs : RunnerState) : RunnerState :=
  { rs with marketClosedBlockedActionCount := none, marketClosedBlockedUntil := 0 }

/-- chainRunner.ts `blockMarketClosed`: block market actions for 60 s at this
action count. -/
def blockMarketClosed (rs : RunnerState) (actionCount now : ℚ) : RunnerState :=
  { rs with marketClosedBlockedActionCount := some actionCount,
            marketClosedBlockedUntil := now + 60000 }

/-- chainRunner.ts `clearVrfPendingBlock`. -/
def clearVrfPendingBlock (rs : RunnerState) : RunnerState :=
  { rs with vrfPendingBlockedActionCount := none, vrfPendingBlockedUntil := 0,
            vrfPendingAttempts := 0, vrfPendingSince := 0, vrfCircuitBreakUntil := 0 }

/-- The exponential VRF backoff interval for attempt `n ≥ 1`:
`min(90 s, 4 s · 2^(n-1))`. -/
def vrfBackoffMs (n : ℕ) : ℚ := min 90000 (4000 * 2 ^ (n - 1))

/-- chainRunner.ts `blockVrfPending`: restart the attempt counter on an
action-count change, bump it, set the capped exponential backoff deadline,
and trip the circuit breaker past 8 attempts spanning 5 minutes. -/
def blockVrfPending (rs : RunnerState) (actionCount now : ℚ) : RunnerState :=
  let sameAction := rs.vrfPendingBlockedActionCount = some actionCount
  let rs1 :=
    if sameAction then rs
    else { rs with vrfPendingAttempts := 0, vrfPendingSince := now }
  let attempts := rs1.vrfPendingAttempts + 1
  let backoffMs := vrfBackoffMs attempts
  let sinceMs := if rs1.vrfPendingSince ≠ 0 then now - rs1.vrfPendingSince else 0
  let tripCircuit :=
    attempts ≥ 8 ∧ sinceMs ≥ 5 * 60000 ∧ now ≥ rs1.vrfCircuitBreakUntil
  { rs1 with vrfPendingAttempts := attempts,
             vrfPendingBlockedActionCount := some actionCount,
             vrfPendingBlockedUntil := now + backoffMs,
             lastProgressAt := now,
             vrfCircuitBreakUntil :=
               if tripCircuit then now + 5 * 60000 else rs1.vrfCircuitBreakUntil }

/-- chainRunner.ts `shouldBlockSelectStats`. -/
def shouldBlockSelectStats (rs : RunnerState) (s : DerivedState) (now : ℚ) : Bool :=
  decide (s.statUpgrades > 0) &&
    (match rs.statUpgradeBlockedActionCount with
      | some ac => decide (s.actionCount = ac ∧ now < rs.statUpgradeBlockedUntil)
      | none => false)

/-- chainRunner.ts `shouldBlockMarketClosed`. -/
def shouldBlockMarketClosed (rs : RunnerState) (s : DerivedState) (now : ℚ) : Bool :=
  match rs.marketClosedBlockedActionCount with
  | some ac => decide (s.actionCount = ac ∧ now < rs.marketClosedBlockedUntil)
  | none => false

/-- chainRunner.ts `shouldWaitForVrf`. -/
def shouldWaitForVrf (rs : RunnerState) (s : DerivedState) (now : ℚ) : Bool :=
  match rs.vrfPendingBlockedActionCount with
  | some ac => decide (ac = s.actionCount ∧ now < rs.vrfPendingBlockedUntil)
  | none => false

/-- chainRunner.ts `shouldPauseForVrfCircuit`. -/
def shouldPauseForVrfCircuit (rs : RunnerState) (s : DerivedState) (now : ℚ) : Bool :=
  match rs.vrfPendingBlockedActionCount with
  | some ac => decide (ac = s.actionCount ∧ now < rs.vrfCircuitBreakUntil)
  | none => false

/-- chainRunner.ts `trackMilestones`: advance progress bookkeeping on xp or
action-count growth and remember the last observed hp. -/
def trackMilestones (rs : RunnerState) (s : DerivedState) (now : ℚ) : RunnerState :=
  let xpGain :=
    match rs.lastXp with
    | none => true
    | some x => decide (s.xp > x)
  let rs1 :=
    if xpGain then
      { rs with lastXp := some s.xp, lastProgressAt := now, staleRecoveryAttempts := 0 }
    else rs
  let acGain :=
    match rs1.lastActionCount with
    | none => true
    | some ac => decide (s.actionCount > ac)
  let rs2 :=
    if acGain then
      { rs1 with lastActionCount := some s.actionCount, lastProgressAt := now,
                 staleRecoveryAttempts := 0 }
    else rs1
  { rs2 with lastHp := some s.hp }

/-- The settlement-wait timeout of `maybeWaitForStateSync` (ms). -/
def stateSyncMaxWaitMs : ℚ := 25000

/-- Result of `maybeWaitForStateSync`: whether the step returned early,
whether the dedicated settlement-wait timeout recovery fired, and the updated
runner state. -/
structure SyncResult where
  returnedEarly : Bool
  syncTimedOut : Bool
  rs : RunnerState
  deriving Repr, DecidableEq

/-- chainRunner.ts `maybeWaitForStateSync`: while a write's expected action
count has not appeared in reads, keep the iteration in a wait state (and keep
the stale-progress watchdog fed) up to a 25 s timeout, which instead clears
the expectation and triggers a lightweight resync. -/
def maybeWaitForStateSync (rs : RunnerState) (s : DerivedState) (now : ℚ) : SyncResult :=
  match rs.awaitingActionCount with
  | none => { returnedEarly := false, syncTimedOut := false, rs := rs }
  | some expected =>
    if s.actionCount ≥ expected then
      { returnedEarly := false, syncTimedOut := false, rs := clearAwaitingActionCount rs }
    else
      let waitedMs :=
        if rs.awaitingActionCountSince ≠ 0 then now - rs.awaitingActionCountSince else 0
      let rs1 :=
        if now - rs.lastStateSyncLogAt ≥ 2000 then { rs with lastStateSyncLogAt := now }
        else rs
      let rs2 := { rs1 with lastProgressAt := now }
      if waitedMs > stateSyncMaxWaitMs then
        { returnedEarly := false, syncTimedOut := true,
          rs := clearAwaitingActionCount rs2 }
      else
        { returnedEarly := true, syncTimedOut := false, rs := rs2 }

/-- chainRunner.ts `maybeHandleVrfStuck`: abandon a VRF-stuck adventurer
(`true`) after the stuck window, outside the abandon cooldown, when auto-buy
is enabled. -/
def maybeHandleVrfStuck (config : RunnerConfig) (rs : RunnerState)
    (s : DerivedState) (now : ℚ) : Bool × RunnerState :=
  match rs.vrfPendingBlockedActionCount with
  | none => (false, rs)
  | some ac =>
    if ac ≠ s.actionCount then (false, rs)
    else if rs.vrfPendingSince = 0 then (false, rs)
    else
      let sinceMs := now - rs.vrfPendingSince
      if sinceMs < config.recovery.vrfStuckMs then (false, rs)
      else if rs.lastVrfAbandonAt ≠ 0 ∧
          now - rs.lastVrfAbandonAt < config.recovery.vrfAbandonCooldownMs then
        (false, rs)
      else
        let rs1 := { rs with lastVrfAbandonAt := now }
        if ¬config.session.autoBuyGame then (false, rs1)
        else (true, clearVrfPendingBlock (clearAwaitingActionCount rs1))

/-- How `handleDeath` ends a step when it returns `true`. -/
inductive DeathKind
  | cooldown
  | blocked
  | abandon
  deriving Repr, DecidableEq

/-- chainRunner.ts `handleDeath` (`some _` means the step returns): a dead
adventurer with xp is debounced by the death cooldown, then either blocked
(auto-buy disabled) or abandoned. -/
def handleDeath (config : RunnerConfig) (rs : RunnerState) (s : DerivedState)
    (now : ℚ) : Option DeathKind × RunnerState :=
  if s.hp > 0 then (none, rs)
  else if s.xp = 0 then (none, rs)
  else if now - rs.lastDeathHandledAt < config.recovery.deathCooldownMs then
    (some .cooldown, rs)
  else
    let rs1 := { rs with lastDeathHandledAt := now }
    if ¬config.session.autoBuyGame then (some .blocked, rs1)
    else (some .abandon, clearVrfPendingBlock (clearAwaitingActionCount rs1))

/-- Schedule initialization inside chainRunner.ts `maybeTakeHumanBreak`: seed
the next short-break and sleep-break timestamps when unset. -/
def breakSchedule (config : RunnerConfig) (o : PacingOracle) (rs : RunnerState)
    (now : ℚ) : RunnerState :=
    let rs1 :=
      if rs.nextHumanBreakAt = 0 then
        { rs with nextHumanBreakAt := now + o.breakIntervalMs }
      else rs
    if rs1.nextSleepBreakAt = 0 then
      if config.pacing.sleepEnabled then
        { rs1 with nextSleepBreakAt := now + o.sleepIntervalMs + o.sleepJitterMs }
      else { rs1 with nextSleepBreakAt := 0 }
    else rs1

/-- chainRunner.ts `maybeTakeHumanBreak` (`true` means the step pauses): an
active break continues; a due break starts when safe, else is deferred by
30 s. -/
def maybeTakeHumanBreak (config : RunnerConfig) (o : PacingOracle)
    (rs : RunnerState) (s : DerivedState) (now : ℚ) : Bool × RunnerState :=
  if ¬config.pacing.enabled then (false, rs)
  else if rs.humanBreakUntil ≠ 0 ∧ now < rs.humanBreakUntil then (true, rs)
  else
    let rs2 := breakSchedule config o rs now
    let sleepDue :=
      config.pacing.sleepEnabled ∧ rs2.nextSleepBreakAt > 0 ∧ now ≥ rs2.nextSleepBreakAt
    let shortDue := rs2.nextHumanBreakAt > 0 ∧ now ≥ rs2.nextHumanBreakAt
    if ¬sleepDue ∧ ¬shortDue then (false, rs2)
    else
      let isSleep := sleepDue
      let safe :=
        rs2.awaitingActionCount = none ∧
          (¬config.pacing.onlyOutOfCombat ∨ ¬s.inCombat) ∧
          ¬rs2.vrfPendingBlockedActionCount = some s.actionCount
      if ¬safe then
        let rs3 := { rs2 with deferredHumanBreaks := rs2.deferredHumanBreaks + 1 }
        let rs4 :=
          if isSleep then { rs3 with nextSleepBreakAt := now + 30000 }
          else { rs3 with nextHumanBreakAt := now + 30000 }
        (false, rs4)
      else
        let durationMs := if isSleep then o.sleepDurationMs else o.breakDurationMs
        (true, { rs2 with humanBreakUntil := now + durationMs })

/-- The mutually-exclusive classifications one `step` iteration can end in.
`act sp` carries the (possibly market-blanked) state handed to
`decideChainAction`; branches past the guard cascade (loot metadata fetch,
equip-consideration pacing, write execution) are outside the embedding. -/
inductive StepOutcome
  | waitSync
  | deathCooldown
  | deathBlocked
  | deathAbandon
  | vrfAbandon
  | vrfCircuitWait
  | vrfWait
  | humanBreak
  | staleRecovery
  | waitSelectStats
  | act (stateForPolicy : DerivedState)
  deriving Repr, DecidableEq

/-- Result of classifying one `step` iteration. -/
structure StepResult where
  outcome : StepOutcome
  syncTimedOut : Bool
  rs : RunnerState
  deriving Repr, DecidableEq

/-- chainRunner.ts `step`: once the observed action count has moved past a
per-action-count block, that block is cleared. -/
def expireBlocks (rs0 : RunnerState) (s : DerivedState) : RunnerState :=
    let rs := rs0
    let rs :=
      match rs.statUpgradeBlockedActionCount with
      | some ac => if s.actionCount > ac then clearStatUpgradeBlock rs else rs
      | none => rs
    let rs :=
      match rs.marketClosedBlockedActionCount with
      | some ac => if s.actionCount > ac then clearMarketClosedBlock rs else rs
      | none => rs
    match rs.vrfPendingBlockedActionCount with
    | some ac => if s.actionCount > ac then clearVrfPendingBlock rs else rs
    | none => rs

/-- chainRunner.ts `step`, continued after the settlement wait: block expiry,
death handling, VRF circuit pause, VRF backoff wait, human break,
stale-progress recovery, stat-select block, then the decision with the market
blanked while the market-closed block is active. -/
def stepTail (config : RunnerConfig) (o : PacingOracle) (rs00 : RunnerState)
    (s : DerivedState) (now : ℚ) (timedOut : Bool) : StepResult :=
    let rs := expireBlocks rs00 s
    let death := handleDeath config rs s now
    match death.1 with
    | some .cooldown =>
      { outcome := .deathCooldown, syncTimedOut := timedOut, rs := death.2 }
    | some .blocked =>
      { outcome := .deathBlocked, syncTimedOut := timedOut, rs := death.2 }
    | some .abandon =>
      { outcome := .deathAbandon, syncTimedOut := timedOut, rs := death.2 }
    | none =>
      let rs := death.2
      if shouldPauseForVrfCircuit rs s now then
        let stuck := maybeHandleVrfStuck config rs s now
        if stuck.1 then
          { outcome := .vrfAbandon, syncTimedOut := timedOut, rs := stuck.2 }
        else
          { outcome := .vrfCircuitWait, syncTimedOut := timedOut,
            rs := { stuck.2 with lastProgressAt := now } }
      else if shouldWaitForVrf rs s now then
        let stuck := maybeHandleVrfStuck config rs s now
        if stuck.1 then
          { outcome := .vrfAbandon, syncTimedOut := timedOut, rs := stuck.2 }
        else
          { outcome := .vrfWait, syncTimedOut := timedOut,
            rs := { stuck.2 with lastProgressAt := now } }
      else
        let brk := maybeTakeHumanBreak config o rs s now
        if brk.1 then
          { outcome := .humanBreak, syncTimedOut := timedOut, rs := brk.2 }
        else
          let rs := brk.2
          if rs.lastProgressAt ≠ 0 ∧ now - rs.lastProgressAt > config.recovery.staleStateMs then
            { outcome := .staleRecovery, syncTimedOut := timedOut, rs := rs }
          else if shouldBlockSelectStats rs s now then
            { outcome := .waitSelectStats, syncTimedOut := timedOut, rs := rs }
          else
            let stateForPolicy :=
              if shouldBlockMarketClosed rs s now then { s with market := [] } else s
            { outcome := .act stateForPolicy, syncTimedOut := timedOut, rs := rs }

/-- chainRunner.ts `step`: milestone tracking and the settlement wait, then
the rest of the guard cascade (`stepTail`). -/
def stepClassify (config : RunnerConfig) (o : PacingOracle) (rs0 : RunnerState)
    (s : DerivedState) (now : ℚ) : StepResult :=
  let rs := trackMilestones rs0 s now
  let sync := maybeWaitForStateSync rs s now
  if sync.returnedEarly then
    { outcome := .waitSync, syncTimedOut := false, rs := sync.rs }
  else
    stepTail config o sync.rs s now sync.syncTimedOut

/-! ## Test fixtures -/

/-- All-empty equipment. -/
def emptyEquipment : Equipment :=
  { weapon := none, chest := none, head := none, waist := none,
    foot := none, hand := none, neck := none, ring := none }

/-- All-zero stats. -/
def zeroStats : Stats :=
  { strength := 0, dexterity := 0, vitality := 0, intelligence := 0,
    wisdom := 0, charisma := 0, luck := 0 }

/-- No active beast. -/
def noBeast : Beast := { id := 0, health := 0, level := 0, isCollectable := false }

/-- A fresh not-started adventurer state. -/
def baseState : DerivedState :=
  { adventurerId := 1, level := 1, hp := 0, maxHp := 100, hpPct := 0, gold := 0,
    xp := 0, actionCount := 0, statUpgrades := 0, vrfPending := false,
    fleeChance := 0, avoidObstacleChance := 0, avoidAmbushChance := 0,
    stats := zeroStats, beast := noBeast, inCombat := false, market := [],
    bagItems := [], equipment := emptyEquipment }

/-- A representative policy configuration. -/
def basePolicy : PolicyConfig :=
  { hpBase := 100, hpPerVitality := 10, maxBeastLevelRatio := 10,
    fleeBelowHpPct := 0.2, minFleeChance := 0.5, minHpToFightPct := 0.3,
    buyPotionIfBelowPct := 0.6, exploreTillBeastPct := 0.8,
    dexTargetRatio := 0.4, vitTargetRatio := 0.5, strTargetRatio := 0.3,
    intTargetRatio := 0.2, wisTargetRatio := 0.2, chaTargetRatio := none,
    statUpgradePriority := ["vitality", "dexterity", "luck"],
    equipUpgradeThreshold := 0.15, targetLevel := 30, equipPotentialBias := 0.4,
    equipPotentialWithinBestPct := 0.25, equipPotentialMaxImmediateDropPct := 0.1 }

/-- A representative runner configuration. -/
def baseConfig : RunnerConfig :=
  { policy := basePolicy,
    recovery :=
      { staleStateMs := 120000, deathCooldownMs := 30000, vrfStuckMs := 600000,
        vrfAbandonCooldownMs := 300000 },
    pacing := { enabled := false, onlyOutOfCombat := true, sleepEnabled := true },
    session := { autoBuyGame := true } }

/-- An empty item catalog. -/
def emptyLootMeta : LootMetaMap := fun _ => none

/-! ## Claims -/

/-- C1: for a `DerivedState` with `hp = 0` and `xp = 0`, `decideChainAction`
returns `startGame`; with `hp = 0` and `xp > 0` it returns `wait`.  Both
branches are terminal — they hold for every policy configuration, item
catalog and equip-consideration flag, so no later branch is consulted. -/
theorem decideChainAction_hp_zero (s : DerivedState) (config : RunnerConfig)
    (lm : LootMetaMap) (ce : Bool) (h : s.hp = 0) :
    (s.xp = 0 → decideChainAction s config lm ce = ⟨.startGame, .noPayload⟩) ∧
      (0 < s.xp → decideChainAction s config lm ce = ⟨.wait, .noPayload⟩) := by
  constructor
  · intro hx
    unfold decideChainAction
    simp [h, hx]
  · intro hx
    have hne : ¬s.xp = 0 := by positivity
    unfold decideChainAction
    simp [h, hne]

/-- Witness for C1 at two concrete states. -/
theorem decideChainAction_hp_zero_witness :
    decideChainAction baseState baseConfig emptyLootMeta true =
        ⟨.startGame, .noPayload⟩ ∧
      decideChainAction { baseState with xp := 5 } baseConfig emptyLootMeta true =
        ⟨.wait, .noPayload⟩ :=
  ⟨(decideChainAction_hp_zero baseState baseConfig emptyLootMeta true rfl).1 rfl,
    (decideChainAction_hp_zero { baseState with xp := 5 } baseConfig emptyLootMeta true
      rfl).2 (by norm_num)⟩

/-- C6: `deriveState` sets `maxHp = hpBase + hpPerVitality × vitality` and
computes `hpPct` as exactly `hp / maxHp` when `maxHp > 0` and as `1`
otherwise (in particular when `maxHp = 0`); no clamping is applied, so
`hp ≤ maxHp` is not enforced. -/
theorem deriveState_hpPct_exact (config : RunnerConfig) (id : ℚ)
    (snap : ChainGameState) :
    (deriveState config id snap).maxHp =
        config.policy.hpBase +
          config.policy.hpPerVitality * toNumber snap.adventurer.stats.vitality ∧
      (deriveState config id snap).hpPct =
        (if (deriveState config id snap).maxHp > 0 then
          (deriveState config id snap).hp / (deriveState config id snap).maxHp
        else 1) :=
  ⟨rfl, rfl⟩

/-- All-zero raw stats. -/
def rawStatsZero : RawStats :=
  { strength := .numV 0, dexterity := .numV 0, vitality := .numV 0,
    intelligence := .numV 0, wisdom := .numV 0, charisma := .numV 0,
    luck := .numV 0 }

/-- An inactive raw beast. -/
def rawBeastZero : RawBeast :=
  { id := .numV 0, health := .numV 0, level := .numV 0, is_collectable := false }

/-- A raw snapshot whose reported health (150) exceeds the derived maximum
(100 with zero vitality under `baseConfig`). -/
def overfullSnap : ChainGameState :=
  { adventurer :=
      { health := .numV 150, xp := .numV 9, gold := .numV 0,
        beast_health := .numV 0, action_count := .numV 0,
        stat_upgrades_available := .numV 0, stats := rawStatsZero,
        equipment_weapon := none, equipment_chest := none, equipment_head := none,
        equipment_waist := none, equipment_foot := none, equipment_hand := none,
        equipment_neck := none, equipment_ring := none },
    beast := rawBeastZero, bag := [], market := [] }

/-- Counterexample to C5 as stated: `deriveState` performs no clamping, so a
raw snapshot reporting `health = 150` against `maxHp = 100` yields
`hpPct = 1.5 ∉ [0, 1]`. -/
theorem deriveState_hpPct_above_one :
    (deriveState baseConfig 1 overfullSnap).hpPct = 3 / 2 ∧
      1 < (deriveState baseConfig 1 overfullSnap).hpPct := by
  constructor
  · norm_num [deriveState, overfullSnap, toNumber, baseConfig, basePolicy, rawStatsZero]
  · norm_num [deriveState, overfullSnap, toNumber, baseConfig, basePolicy, rawStatsZero]

/-- C5 (amended): when the raw health and vitality are natural numbers, the
config constants are natural numbers, and the reported health does not exceed
the derived maximum, `deriveState` yields non-negative integer `hp` and
`maxHp` and an `hpPct` in `[0, 1]`.  (As literally stated over every raw
snapshot the claim fails: the deriver reflects the source values without
clamping — see the counterexample.) -/
theorem deriveState_vitals_in_range (b p v h : ℕ) (config : RunnerConfig) (id : ℚ)
    (snap : ChainGameState)
    (hb : config.policy.hpBase = (b : ℚ)) (hpv : config.policy.hpPerVitality = (p : ℚ))
    (hv : snap.adventurer.stats.vitality = .numV (v : ℚ))
    (hh : snap.adventurer.health = .numV (h : ℚ))
    (hle : (h : ℚ) ≤ (b : ℚ) + (p : ℚ) * (v : ℚ)) :
    (deriveState config id snap).hp = ((h : ℕ) : ℚ) ∧
      (deriveState config id snap).maxHp = ((b + p * v : ℕ) : ℚ) ∧
      0 ≤ (deriveState config id snap).hpPct ∧
      (deriveState config id snap).hpPct ≤ 1 := by
  have hhp : (deriveState config id snap).hp = (h : ℚ) := by
    simp [deriveState, hh, toNumber]
  have hmax : (deriveState config id snap).maxHp = (b : ℚ) + (p : ℚ) * (v : ℚ) := by
    simp [deriveState, hv, toNumber, hb, hpv]
  have hpct : (deriveState config id snap).hpPct =
      (if (deriveState config id snap).maxHp > 0 then
        (deriveState config id snap).hp / (deriveState config id snap).maxHp
      else 1) := rfl
  refine ⟨hhp, by rw [hmax]; push_cast; ring, ?_, ?_⟩
  · rw [hpct]
    split
    · rw [hhp, hmax]
      positivity
    · norm_num
  · rw [hpct]
    split
    · rename_i hpos
      rw [hhp, hmax]
      rw [hmax] at hpos
      rw [div_le_one hpos]
      exact hle
    · norm_num

/-- Witness for C5 (amended) at `b = 100`, `p = 10`, `v = 2`, `h = 50`. -/
theorem deriveState_vitals_in_range_witness :
    (deriveState baseConfig 1
        { overfullSnap with
            adventurer := { overfullSnap.adventurer with health := .numV 50 } }).hp =
        (50 : ℚ) ∧
      0 ≤ (deriveState baseConfig 1
          { overfullSnap with
              adventurer := { overfullSnap.adventurer with health := .numV 50 } }).hpPct ∧
      (deriveState baseConfig 1
          { overfullSnap with
              adventurer := { overfullSnap.adventurer with health := .numV 50 } }).hpPct ≤ 1 := by
  obtain ⟨h1, _, h3, h4⟩ :=
    deriveState_vitals_in_range 100 10 0 50 baseConfig 1
      { overfullSnap with
          adventurer := { overfullSnap.adventurer with health := .numV 50 } }
      (by norm_num [baseConfig, basePolicy]) (by norm_num [baseConfig, basePolicy])
      (by norm_num [overfullSnap, rawStatsZero]) (by norm_num) (by norm_num)
  exact ⟨by simpa using h1, h3, h4⟩

/-- A successful `decideMarket` whose result is a `buyPotions` action can
only have come from the potion step. -/
theorem decideMarket_buyPotions_inv (s : DerivedState) (config : RunnerConfig)
    (lm : LootMetaMap) (a : ChainAction) (h : decideMarket s config lm = some a)
    (ht : a.type = .buyPotions) : marketPotionAction s config = some a := by
  unfold decideMarket at h
  cases hp : marketPotionAction s config with
  | some x =>
    rw [hp, Option.some_orElse'] at h
    injection h with h
    rw [h]
  | none =>
    exfalso
    rw [hp, Option.none_orElse'] at h
    cases hw : marketWeaponPick s config lm (marketEntriesOf s lm) (potionReserveGold s) with
    | some x =>
      rw [hw, Option.map_some', Option.some_orElse'] at h
      injection h with h
      rw [← h] at ht
      simp [buyOne] at ht
    | none =>
    rw [hw, Option.map_none', Option.none_orElse'] at h
    cases hf : marketFillArmorPick s (marketEntriesOf s lm) (potionReserveGold s) with
    | some x =>
      rw [hf, Option.map_some', Option.some_orElse'] at h
      injection h with h
      rw [← h] at ht
      simp [buyOne] at ht
    | none =>
    rw [hf, Option.map_none', Option.none_orElse'] at h
    cases hr : marketRingPick s (marketEntriesOf s lm) (potionReserveGold s) with
    | some x =>
      rw [hr, Option.map_some', Option.some_orElse'] at h
      injection h with h
      rw [← h] at ht
      simp [buyOne] at ht
    | none =>
    rw [hr, Option.map_none', Option.none_orElse'] at h
    cases hn : marketNeckPick s lm (marketEntriesOf s lm) (potionReserveGold s) with
    | some x =>
      rw [hn, Option.map_some', Option.some_orElse'] at h
      injection h with h
      rw [← h] at ht
      simp [buyOne] at ht
    | none =>
    rw [hn, Option.map_none', Option.none_orElse'] at h
    cases hu : marketUpgradePick s config lm (marketEntriesOf s lm) (potionReserveGold s) with
    | some x =>
      rw [hu, Option.map_some'] at h
      injection h with h
      rw [← h] at ht
      simp [buyOne] at ht
    | none =>
      rw [hu, Option.map_none'] at h
      exact Option.noConfusion h

theorem potionPrice_ge_one (level charisma : ℚ) : 1 ≤ potionPrice level charisma := by
  unfold potionPrice MINIMUM_POTION_PRICE
  dsimp only
  split
  · exact le_refl 1
  · exact le_max_left 1 _

theorem decideCombat_type (s : DerivedState) (config : RunnerConfig)
    (lm : LootMetaMap) (ce : Bool) :
    (decideCombat s config lm ce).type = .equip ∨
      (decideCombat s config lm ce).type = .flee ∨
      (decideCombat s config lm ce).type = .attack := by
  unfold decideCombat
  rcases hd : decideCombatEquip s config lm ce with _ | items
  · simp only [hd]
    split
    · exact Or.inr (Or.inl rfl)
    · exact Or.inr (Or.inr rfl)
  · simp [hd]

theorem potionCount_ge_one (s : DerivedState) (config : RunnerConfig) :
    1 ≤ potionCount s config :=
  le_max_left 1 _

theorem potionCount_mul_le (s : DerivedState) (config : RunnerConfig)
    (hgold : potionPrice s.level s.stats.charisma ≤ s.gold) :
    potionCount s config * potionPrice s.level s.stats.charisma ≤ s.gold := by
  set u := potionPrice s.level s.stats.charisma with hu
  have hu1 : 1 ≤ u := potionPrice_ge_one _ _
  have hupos : (0 : ℚ) < u := lt_of_lt_of_le one_pos hu1
  have hfloor1 : (1 : ℚ) ≤ jsFloor (s.gold / u) := by
    have h1 : (1 : ℤ) ≤ ⌊s.gold / u⌋ := by
      rw [Int.le_floor]
      push_cast
      rw [le_div_iff₀ hupos]
      simpa using hgold
    unfold jsFloor
    exact_mod_cast h1
  have hfl : jsFloor (s.gold / u) * u ≤ s.gold := by
    have hle : jsFloor (s.gold / u) ≤ s.gold / u := by
      unfold jsFloor
      exact_mod_cast Int.floor_le (s.gold / u)
    calc jsFloor (s.gold / u) * u ≤ s.gold / u * u :=
          mul_le_mul_of_nonneg_right hle hupos.le
      _ = s.gold := div_mul_cancel₀ s.gold hupos.ne'
  have key : ∀ a b : ℚ, 1 ≤ b → max 1 (min (max 1 a) (max 0 b)) ≤ b := by
    intro a b h1b
    have hb : max 0 b = b := max_eq_right (le_trans zero_le_one h1b)
    rw [hb, max_eq_right (le_min (le_max_left 1 a) h1b)]
    exact min_le_right _ _
  have hcount : potionCount s config ≤ jsFloor (s.gold / u) := by
    unfold potionCount
    rw [← hu]
    exact key _ _ hfloor1
  calc potionCount s config * u ≤ jsFloor (s.gold / u) * u :=
        mul_le_mul_of_nonneg_right hcount hupos.le
    _ ≤ s.gold := hfl

theorem marketPotionAction_spec (s : DerivedState) (config : RunnerConfig)
    (a : ChainAction) (h : marketPotionAction s config = some a) :
    s.hp < s.maxHp ∧ potionPrice s.level s.stats.charisma ≤ s.gold ∧
      ∃ count : ℚ, a = ⟨.buyPotions, .potionsP count⟩ ∧ 1 ≤ count ∧
        count * potionPrice s.level s.stats.charisma ≤ s.gold := by
  unfold marketPotionAction at h
  split at h
  · split at h
    · exact Option.noConfusion h
    · rename_i hfull
      split at h
      · rename_i hgold
        split at h
        · injection h with h
          subst h
          push_neg at hfull
          exact ⟨hfull, hgold, potionCount s config, rfl,
            potionCount_ge_one s config, potionCount_mul_le s config hgold⟩
        · exact Option.noConfusion h
      · exact Option.noConfusion h
  · exact Option.noConfusion h

theorem decideChainAction_buyPotions_inv (s : DerivedState) (config : RunnerConfig)
    (lm : LootMetaMap) (ce : Bool) (a : ChainAction)
    (ha : decideChainAction s config lm ce = a) (h : a.type = .buyPotions) :
    marketPotionAction s config = some a := by
  unfold decideChainAction at ha
  split at ha
  · rw [← ha] at h; simp at h
  split at ha
  · rw [← ha] at h; simp at h
  split at ha
  · exfalso
    rw [← ha] at h
    rcases decideCombat_type s config lm ce with ht | ht | ht <;> rw [ht] at h <;>
      exact ChainActionType.noConfusion h
  split at ha
  · rw [← ha] at h; simp at h
  · revert ha
    split
    · cases hdm : decideMarket s config lm with
      | some x =>
        intro ha
        simp only [hdm] at ha
        subst ha
        exact decideMarket_buyPotions_inv s config lm x hdm h
      | none =>
        intro ha
        simp only [hdm] at ha
        exfalso
        revert ha
        cases het : decideEquipTail s config lm ce with
        | some items =>
          intro ha
          rw [← ha] at h
          exact ChainActionType.noConfusion h
        | none =>
          intro ha
          rw [← ha] at h
          unfold decideExplore at h
          exact ChainActionType.noConfusion h
    · intro ha
      exfalso
      revert ha
      cases het : decideEquipTail s config lm ce with
      | some items =>
        intro ha
        rw [← ha] at h
        exact ChainActionType.noConfusion h
      | none =>
        intro ha
        rw [← ha] at h
        unfold decideExplore at h
        exact ChainActionType.noConfusion h

/-- C10: whenever `decideChainAction` returns a `buyPotions` action, the
input state has `hp < maxHp` (never at full hp) and gold at least the unit
potion price, and the payload count is at least 1 and affordable
(`count × unit price ≤ gold`). -/
theorem decideChainAction_buyPotions_spec (s : DerivedState) (config : RunnerConfig)
    (lm : LootMetaMap) (ce : Bool)
    (h : (decideChainAction s config lm ce).type = .buyPotions) :
    s.hp < s.maxHp ∧ potionPrice s.level s.stats.charisma ≤ s.gold ∧
      ∃ count : ℚ, (decideChainAction s config lm ce).payload = .potionsP count ∧
        1 ≤ count ∧ count * potionPrice s.level s.stats.charisma ≤ s.gold := by
  have hinv :=
    decideChainAction_buyPotions_inv s config lm ce (decideChainAction s config lm ce)
      rfl h
  obtain ⟨h1, h2, count, heq, h4, h5⟩ := marketPotionAction_spec s config _ hinv
  exact ⟨h1, h2, count, by rw [heq], h4, h5⟩

/-- A mid-run state that buys potions: hurt, gold for one potion, open
market. -/
def potionState : DerivedState :=
  { baseState with
      hp := 40
      maxHp := 100
      hpPct := 0.4
      xp := 100
      level := 10
      gold := 10
      market := [99] }

/-- Witness for C10 at `potionState`. -/
theorem decideChainAction_buyPotions_spec_witness :
    potionState.hp < potionState.maxHp ∧
      potionPrice potionState.level potionState.stats.charisma ≤ potionState.gold ∧
      ∃ count : ℚ,
        (decideChainAction potionState baseConfig emptyLootMeta true).payload =
            .potionsP count ∧
          1 ≤ count ∧
          count * potionPrice potionState.level potionState.stats.charisma ≤
            potionState.gold :=
  decideChainAction_buyPotions_spec potionState baseConfig emptyLootMeta true (by
    have h : decideChainAction potionState baseConfig emptyLootMeta true =
        ⟨.buyPotions, .potionsP 1⟩ := by
      norm_num [decideChainAction, decideMarket, marketPotionAction, potionCount,
        potionPrice, marketHealTargetPct, clampFloat, jsFloor, jsCeil, potionState,
        baseState, baseConfig, basePolicy, Option.some_orElse', Int.floor_zero,
        Int.floor_one, Int.ceil_zero, Int.ceil_one, min_def, max_def,
        BASE_POTION_PRICE, CHARISMA_POTION_DISCOUNT, MINIMUM_POTION_PRICE,
        POTION_HEALTH_AMOUNT, zeroStats, noBeast, emptyEquipment, emptyLootMeta, lerp]
    rw [h])

/-- The seven stat record keys. -/
def statNames : List String :=
  ["strength", "dexterity", "vitality", "intelligence", "wisdom", "charisma", "luck"]

theorem StatAlloc.add_total (a : StatAlloc) (nm : String) (h : nm ∈ statNames) :
    (a.add nm).total = a.total + 1 := by
  simp only [statNames, List.mem_cons, List.not_mem_nil, or_false] at h
  rcases h with rfl | rfl | rfl | rfl | rfl | rfl | rfl <;>
    simp [StatAlloc.add, StatAlloc.total] <;> omega

theorem StatAlloc.add_luck (a : StatAlloc) (nm : String) (h : nm ∈ statNames)
    (hl : nm ≠ "luck") : (a.add nm).luck = a.luck := by
  simp only [statNames, List.mem_cons, List.not_mem_nil, or_false] at h
  rcases h with rfl | rfl | rfl | rfl | rfl | rfl | rfl <;>
    simp_all [StatAlloc.add]

theorem pickStatsStep_effect (s : DerivedState) (config : RunnerConfig)
    (minChar : ℚ) (midgame : Bool) (targets : StatTargets) (k : ℕ) (a : StatAlloc)
    (hvalid : ∀ nm ∈ config.policy.statUpgradePriority, nm ∈ statNames)
    (hne : config.policy.statUpgradePriority ≠ []) :
    (pickStatsStep s config minChar midgame targets k a).total = a.total + 1 ∧
      (pickStatsStep s config minChar midgame targets k a).luck = a.luck := by
  unfold pickStatsStep
  split
  · exact ⟨a.add_total _ (by simp [statNames]), a.add_luck _ (by simp [statNames]) (by decide)⟩
  split
  · exact ⟨a.add_total _ (by simp [statNames]), a.add_luck _ (by simp [statNames]) (by decide)⟩
  split
  · exact ⟨a.add_total _ (by simp [statNames]), a.add_luck _ (by simp [statNames]) (by decide)⟩
  split
  · exact ⟨a.add_total _ (by simp [statNames]), a.add_luck _ (by simp [statNames]) (by decide)⟩
  split
  · exact ⟨a.add_total _ (by simp [statNames]), a.add_luck _ (by simp [statNames]) (by decide)⟩
  split
  · exact ⟨a.add_total _ (by simp [statNames]), a.add_luck _ (by simp [statNames]) (by decide)⟩
  split
  · exact ⟨a.add_total _ (by simp [statNames]), a.add_luck _ (by simp [statNames]) (by decide)⟩
  split
  · exact ⟨a.add_total _ (by simp [statNames]), a.add_luck _ (by simp [statNames]) (by decide)⟩
  split
  · exact ⟨a.add_total _ (by simp [statNames]), a.add_luck _ (by simp [statNames]) (by decide)⟩
  · have hlen : 0 < config.policy.statUpgradePriority.length :=
      List.length_pos.mpr hne
    rcases hg : config.policy.statUpgradePriority.get?
        (k % config.policy.statUpgradePriority.length) with _ | nm
    · exfalso
      rw [List.get?_eq_none] at hg
      exact absurd hg (not_le.mpr (Nat.mod_lt k hlen))
    · have hmem : nm ∈ statNames := hvalid nm (List.get?_mem hg)
      simp only [hg]
      by_cases hl : nm = "luck"
      · simp only [hl, if_pos rfl]
        exact ⟨a.add_total _ (by simp [statNames]),
          a.add_luck _ (by simp [statNames]) (by decide)⟩
      · simp only [if_neg hl]
        exact ⟨a.add_total _ hmem, a.add_luck _ hmem hl⟩

theorem pickStatsLoop_effect (s : DerivedState) (config : RunnerConfig)
    (minChar : ℚ) (midgame : Bool) (targets : StatTargets)
    (hvalid : ∀ nm ∈ config.policy.statUpgradePriority, nm ∈ statNames)
    (hne : config.policy.statUpgradePriority ≠ []) :
    ∀ (fuel k : ℕ) (a : StatAlloc),
      (pickStatsLoop s config minChar midgame targets fuel (fuel : ℚ) k a).total =
          a.total + fuel ∧
        (pickStatsLoop s config minChar midgame targets fuel (fuel : ℚ) k a).luck =
          a.luck := by
  intro fuel
  induction fuel with
  | zero => intro k a; simp [pickStatsLoop]
  | succ n ih =>
    intro k a
    have hpos : ((n + 1 : ℕ) : ℚ) > 0 := by positivity
    have hsub : ((n + 1 : ℕ) : ℚ) - 1 = (n : ℚ) := by push_cast; ring
    unfold pickStatsLoop
    rw [if_pos hpos, hsub]
    obtain ⟨iht, ihl⟩ :=
      ih (k + 1) (pickStatsStep s config minChar midgame targets k a)
    obtain ⟨het, hel⟩ :=
      pickStatsStep_effect s config minChar midgame targets k a hvalid hne
    constructor
    · rw [iht, het]; omega
    · rw [ihl, hel]

/-- C9: whenever `decideChainAction` returns `selectStats` (live adventurer,
not in combat, `statUpgrades = n > 0` a natural number, and a configured
priority order of well-formed stat names), the payload allocates exactly `n`
points in total across the seven stats and never allocates to luck (a `luck`
entry in the priority order is redirected to vitality). -/
theorem decideChainAction_selectStats_spec (s : DerivedState) (config : RunnerConfig)
    (lm : LootMetaMap) (ce : Bool) (n : ℕ)
    (hhp : 0 < s.hp) (hcombat : s.inCombat = false)
    (hsu : s.statUpgrades = (n : ℚ)) (hn : 0 < n)
    (hvalid : ∀ nm ∈ config.policy.statUpgradePriority, nm ∈ statNames)
    (hne : config.policy.statUpgradePriority ≠ []) :
    decideChainAction s config lm ce = ⟨.selectStats, .statsP (pickStats s config)⟩ ∧
      (pickStats s config).total = n ∧ (pickStats s config).luck = 0 := by
  have h1 : ¬(s.hp ≤ 0 ∧ s.xp = 0) := fun hc => absurd hhp (not_lt.mpr hc.1)
  have h2 : ¬s.hp ≤ 0 := not_le.mpr hhp
  have h4 : s.statUpgrades > 0 := by
    rw [hsu]
    exact_mod_cast hn
  have hfuel : (⌈s.statUpgrades⌉).toNat = n := by
    rw [hsu, Int.ceil_natCast, Int.toNat_natCast]
  have hloop :=
    pickStatsLoop_effect s config
      (clampInt (jsFloor (max 1 s.level / 2)) 0 MAX_STAT) (max 1 s.level ≥ 12)
  constructor
  · unfold decideChainAction
    rw [if_neg h1, if_neg h2, hcombat]
    simp only [Bool.false_eq_true, if_false, if_pos h4]
  · constructor
    · unfold pickStats
      dsimp only
      rw [hfuel, hsu]
      obtain ⟨ht, _⟩ := (hloop _ hvalid hne) n 0 StatAlloc.zero
      rw [ht]
      simp [StatAlloc.total, StatAlloc.zero]
    · unfold pickStats
      dsimp only
      rw [hfuel, hsu]
      obtain ⟨_, hl⟩ := (hloop _ hvalid hne) n 0 StatAlloc.zero
      rw [hl]
      rfl

/-- A healthy mid-run state holding two unspent stat points. -/
def statState : DerivedState :=
  { baseState with
      hp := 50
      maxHp := 100
      hpPct := 0.5
      xp := 100
      level := 10
      statUpgrades := 2 }

/-- Witness for C9 at `statState` with `baseConfig` (whose fallback priority
order contains `luck`). -/
theorem decideChainAction_selectStats_spec_witness :
    decideChainAction statState baseConfig emptyLootMeta true =
        ⟨.selectStats, .statsP (pickStats statState baseConfig)⟩ ∧
      (pickStats statState baseConfig).total = 2 ∧
      (pickStats statState baseConfig).luck = 0 :=
  decideChainAction_selectStats_spec statState baseConfig emptyLootMeta true 2
    (by norm_num [statState, baseState]) rfl
    (by norm_num [statState, baseState]) (by norm_num)
    (by
      intro nm h
      simp only [baseConfig, basePolicy] at h
      fin_cases h <;> simp [statNames])
    (by simp [baseConfig, basePolicy])

theorem jsFloor_eq_of (q : ℚ) (n : ℤ) (h1 : (n : ℚ) ≤ q) (h2 : q < n + 1) :
    jsFloor q = (n : ℚ) := by
  unfold jsFloor
  norm_cast
  rw [Int.floor_eq_iff]
  exact ⟨h1, by exact_mod_cast h2⟩

theorem jsCeil_eq_of (q : ℚ) (n : ℤ) (h1 : (n : ℚ) - 1 < q) (h2 : q ≤ (n : ℚ)) :
    jsCeil q = (n : ℚ) := by
  unfold jsCeil
  norm_cast
  rw [Int.ceil_eq_iff]
  exact ⟨by exact_mod_cast h1, h2⟩

theorem estimateAttackDamage_ge_four (s : DerivedState) (lm : LootMetaMap) :
    4 ≤ estimateAttackDamage s lm := by
  unfold estimateAttackDamage MINIMUM_DAMAGE_TO_BEASTS
  rcases hw : s.equipment.weapon with _ | w
  · simp only [hw]
    exact le_refl (4 : ℚ)
  · simp only [hw]
    rcases hm : lm w.id with _ | m
    · simp only [hm]
      exact le_refl (4 : ℚ)
    · simp only [hm]
      exact le_max_left (4 : ℚ) _

theorem cmTurnsToKill_eq_ceil (s : DerivedState) (lm : LootMetaMap) :
    cmTurnsToKill s lm = jsCeil (s.beast.health / estimateAttackDamage s lm) := by
  unfold cmTurnsToKill
  dsimp only
  rw [if_pos]
  have := estimateAttackDamage_ge_four s lm
  linarith

theorem cmShouldFlee_of_slow_fight (s : DerivedState) (lm : LootMetaMap)
    (config : RunnerConfig) (h1 : 7 ≤ cmTurnsToKill s lm)
    (h2 : 0.55 ≤ s.fleeChance) : cmShouldFlee s lm config = true := by
  unfold cmShouldFlee
  split
  · rfl
  split
  · rfl
  · rename_i hcond
    exact absurd ⟨h1, h2⟩ hcond

theorem decideCombatEquip_disabled (s : DerivedState) (config : RunnerConfig)
    (lm : LootMetaMap) : decideCombatEquip s config lm false = none := by
  unfold decideCombatEquip
  simp

/-- C7: for an in-combat state with the equip swap disabled, whenever
`turnsToKill ≥ 7` and `fleeChance ≥ 0.55`, `decideChainAction` returns
`flee`; moreover `turnsToKill = ⌈beastHealth / estimatedHitDamage⌉` (the
estimated hit damage is always positive) and
`expectedFightDamage = estimatedIncomingDamagePerHit × (turnsToKill − 1)`. -/
theorem decideChainAction_slow_fight_flee (s : DerivedState) (config : RunnerConfig)
    (lm : LootMetaMap) (hhp : 0 < s.hp) (hcombat : s.inCombat = true)
    (httk : 7 ≤ cmTurnsToKill s lm) (hfc : 0.55 ≤ s.fleeChance) :
    decideChainAction s config lm false = ⟨.flee, .noPayload⟩ ∧
      cmTurnsToKill s lm = jsCeil (s.beast.health / estimateAttackDamage s lm) ∧
      cmExpectedFightDamage s lm =
        estimateBeastDamagePerHit s lm * (cmTurnsToKill s lm - 1) := by
  refine ⟨?_, cmTurnsToKill_eq_ceil s lm, ?_⟩
  · have h1 : ¬(s.hp ≤ 0 ∧ s.xp = 0) := fun hc => absurd hhp (not_lt.mpr hc.1)
    have h2 : ¬s.hp ≤ 0 := not_le.mpr hhp
    unfold decideChainAction
    rw [if_neg h1, if_neg h2, hcombat]
    simp only [if_true]
    unfold decideCombat
    rw [decideCombatEquip_disabled]
    rw [cmShouldFlee_of_slow_fight s lm config httk hfc]
    rfl
  · unfold cmExpectedFightDamage
    rw [max_eq_right (by linarith : (0 : ℚ) ≤ cmTurnsToKill s lm - 1)]

/-- An in-combat state facing a slow-to-kill beast with a good flee chance. -/
def fightState : DerivedState :=
  { baseState with
      hp := 100
      maxHp := 200
      hpPct := 0.5
      xp := 100
      level := 10
      fleeChance := 0.6
      beast := { id := 1, health := 30, level := 2, isCollectable := false }
      inCombat := true }

/-- Witness for C7 at `fightState` (no weapon: 4 damage per hit, 8 turns to
kill a 30-hp beast). -/
theorem decideChainAction_slow_fight_flee_witness :
    decideChainAction fightState baseConfig emptyLootMeta false =
        ⟨.flee, .noPayload⟩ ∧
      cmTurnsToKill fightState emptyLootMeta =
        jsCeil (fightState.beast.health / estimateAttackDamage fightState emptyLootMeta) ∧
      cmExpectedFightDamage fightState emptyLootMeta =
        estimateBeastDamagePerHit fightState emptyLootMeta *
          (cmTurnsToKill fightState emptyLootMeta - 1) :=
  decideChainAction_slow_fight_flee fightState baseConfig emptyLootMeta
    (by norm_num [fightState, baseState]) rfl
    (by
      have hc : jsCeil ((30 : ℚ) / 4) = ((8 : ℤ) : ℚ) :=
        jsCeil_eq_of _ 8 (by norm_num) (by norm_num)
      have h8 : cmTurnsToKill fightState emptyLootMeta = 8 := by
        rw [cmTurnsToKill_eq_ceil]
        have hatk : estimateAttackDamage fightState emptyLootMeta = 4 := rfl
        rw [hatk]
        have hbh : fightState.beast.health = 30 := rfl
        rw [hbh, hc]
        norm_num
      rw [h8]
      norm_num)
    (by norm_num [fightState, baseState])

theorem estimateBeastDamagePerHit_ge_two (s : DerivedState) (lm : LootMetaMap) :
    (2 : ℚ) ≤ estimateBeastDamagePerHit s lm := by
  unfold estimateBeastDamagePerHit MINIMUM_DAMAGE_FROM_BEASTS
  dsimp only
  exact le_max_left (2 : ℚ) _

theorem cmTurnsToKill_isInt (s : DerivedState) (lm : LootMetaMap) :
    ∃ z : ℤ, cmTurnsToKill s lm = (z : ℚ) := by
  unfold cmTurnsToKill
  dsimp only
  split
  · exact ⟨⌈s.beast.health / estimateAttackDamage s lm⌉, rfl⟩
  · exact ⟨99, by norm_num⟩

theorem cmShouldFlee_of_expected_damage (s : DerivedState) (lm : LootMetaMap)
    (config : RunnerConfig) (hhp : 0 < s.hp)
    (hexp : s.hp * 0.8 < cmExpectedFightDamage s lm)
    (hfc : 0.45 ≤ s.fleeChance) : cmShouldFlee s lm config = true := by
  have hinc := estimateBeastDamagePerHit_ge_two s lm
  have h08 : (0 : ℚ) < s.hp * 0.8 := mul_pos hhp (by norm_num)
  have hpos : 0 < cmExpectedFightDamage s lm := h08.trans hexp
  have hm : 0 < max 0 (cmTurnsToKill s lm - 1) := by
    rcases le_or_lt (cmTurnsToKill s lm - 1) 0 with hle | hlt
    · exfalso
      have h0 : max 0 (cmTurnsToKill s lm - 1) = 0 := max_eq_left hle
      have hpos2 := hpos
      unfold cmExpectedFightDamage at hpos2
      rw [h0, mul_zero] at hpos2
      exact lt_irrefl 0 hpos2
    · exact lt_of_lt_of_le hlt (le_max_right 0 _)
  have hm1 : 1 ≤ max 0 (cmTurnsToKill s lm - 1) := by
    obtain ⟨z, hz⟩ := cmTurnsToKill_isInt s lm
    rw [hz] at hm ⊢
    rcases le_or_lt ((z : ℚ) - 1) 0 with hle | hlt
    · rw [max_eq_left hle] at hm
      exact absurd hm (lt_irrefl 0)
    · rw [max_eq_right hlt.le]
      have hz1 : (1 : ℤ) < z := by exact_mod_cast (by linarith : (1 : ℚ) < (z : ℚ))
      have hz2 : (2 : ℚ) ≤ (z : ℚ) := by exact_mod_cast hz1
      linarith
  have hflee : cmExpectedFleeDamage s lm < cmExpectedFightDamage s lm := by
    unfold cmExpectedFleeDamage cmExpectedFightDamage
    have hincpos : (0 : ℚ) < estimateBeastDamagePerHit s lm := by linarith
    calc (1 - s.fleeChance) * estimateBeastDamagePerHit s lm
        < 1 * estimateBeastDamagePerHit s lm :=
          mul_lt_mul_of_pos_right (by linarith) hincpos
      _ = estimateBeastDamagePerHit s lm := one_mul _
      _ ≤ estimateBeastDamagePerHit s lm * max 0 (cmTurnsToKill s lm - 1) :=
          le_mul_of_one_le_right hincpos.le hm1
  unfold cmShouldFlee
  split
  · rfl
  split
  · rfl
  split
  · rfl
  · rename_i h3
    exact absurd ⟨hexp.le, hfc, hflee⟩ h3

theorem cmShouldFlee_eq_false (s : DerivedState) (lm : LootMetaMap)
    (config : RunnerConfig)
    (h1 : ¬(s.beast.level > max 1 s.level * config.policy.maxBeastLevelRatio ∧
        s.hpPct < 0.9))
    (hfc : s.fleeChance < 0.45)
    (h4 : ¬(s.hpPct < config.policy.fleeBelowHpPct ∧
        (s.fleeChance ≥ config.policy.minFleeChance ∨
          s.hpPct < config.policy.fleeBelowHpPct * 0.7))) :
    cmShouldFlee s lm config = false := by
  unfold cmShouldFlee
  rw [if_neg h1]
  rw [if_neg (fun hc : _ ∧ _ => absurd hc.2 (not_le.mpr (by linarith)))]
  rw [if_neg (fun hc : _ ∧ _ ∧ _ => absurd hc.2.1 (not_le.mpr hfc))]
  split
  · rename_i hlt
    exact decide_eq_false (fun hor => h4 ⟨hlt, hor⟩)
  · rfl

/-- C2 (amended): with the equip-swap consideration disabled, every in-combat
state (hp > 0) whose engine-computed `expectedFightDamage` exceeds
`0.8 × hp` with `fleeChance ≥ 0.45` yields `flee`; and with
`fleeChance < 0.45` it yields `attack` provided no other flee rule applies
(the beast is not over-leveled with hp below 90 %, and the hp fraction is not
below the flee threshold with either `fleeChance ≥ minFleeChance` or hp
critically low).  (As literally stated the claim fails on both sides — see
the counterexample.) -/
theorem decideChainAction_combat_boundary (s : DerivedState) (config : RunnerConfig)
    (lm : LootMetaMap) (hhp : 0 < s.hp) (hcombat : s.inCombat = true) :
    (s.hp * 0.8 < cmExpectedFightDamage s lm → 0.45 ≤ s.fleeChance →
        decideChainAction s config lm false = ⟨.flee, .noPayload⟩) ∧
      (s.fleeChance < 0.45 →
        ¬(s.beast.level > max 1 s.level * config.policy.maxBeastLevelRatio ∧
            s.hpPct < 0.9) →
        ¬(s.hpPct < config.policy.fleeBelowHpPct ∧
            (s.fleeChance ≥ config.policy.minFleeChance ∨
              s.hpPct < config.policy.fleeBelowHpPct * 0.7)) →
        decideChainAction s config lm false = ⟨.attack, .noPayload⟩) := by
  have h1 : ¬(s.hp ≤ 0 ∧ s.xp = 0) := fun hc => absurd hhp (not_lt.mpr hc.1)
  have h2 : ¬s.hp ≤ 0 := not_le.mpr hhp
  constructor
  · intro hexp hfc
    unfold decideChainAction
    rw [if_neg h1, if_neg h2, hcombat]
    simp only [if_true]
    unfold decideCombat
    rw [decideCombatEquip_disabled]
    rw [cmShouldFlee_of_expected_damage s lm config hhp hexp hfc]
    rfl
  · intro hfc hb1 hb4
    unfold decideChainAction
    rw [if_neg h1, if_neg h2, hcombat]
    simp only [if_true]
    unfold decideCombat
    rw [decideCombatEquip_disabled]
    rw [cmShouldFlee_eq_false s lm config hb1 hfc hb4]
    rfl

/-- Catalog for the combat-boundary counterexample: one tier-1 cloth chest
piece. -/
def cexMeta : LootMetaMap := fun id =>
  if id = 100 then some ⟨100, 1, "chest", "magic_or_cloth"⟩ else none

/-- Combat state carrying a chest armor piece in the bag whose equip swap
dominates fleeing. -/
def cexEquipState : DerivedState :=
  { baseState with
      hp := 128
      maxHp := 256
      hpPct := 0.5
      xp := 25
      level := 5
      fleeChance := 0.5
      inCombat := true
      beast := { id := 1, health := 30, level := 2, isCollectable := false }
      bagItems := [⟨100, 9⟩] }

/-- The equipment after the counterexample swap. -/
def cexEqC : Equipment :=
  { weapon := none, chest := some ⟨100, 9⟩, head := none, waist := none,
    foot := none, hand := none, neck := none, ring := none }

/-- The same damage profile with a low flee chance and critically low hp
fraction. -/
def cexLowState : DerivedState :=
  { baseState with
      hp := 100
      maxHp := 1000
      hpPct := 0.1
      xp := 25
      level := 5
      fleeChance := 0.2
      inCombat := true
      beast := { id := 1, health := 30, level := 2, isCollectable := false } }

theorem cex_pick : chooseCombatEquipItems cexEquipState cexMeta = ([100], cexEqC) := by
  simp [chooseCombatEquipItems, cexMeta, cexEquipState, baseState, emptyEquipment,
    Equipment.get, Equipment.set, applyPicks, equipmentSlotNames, armorSlotNames,
    zeroStats, noBeast, cexEqC, Option.none_orElse']

theorem cex_atk : estimateAttackDamage cexEquipState cexMeta = 4 := rfl

theorem cex_hcz8 : jsCeil ((30 : ℚ) / 4) = 8 := by
  unfold jsCeil
  have h : ⌈(30 : ℚ) / 4⌉ = 8 := by
    rw [Int.ceil_eq_iff] <;> norm_num
  rw [h]
  norm_num

theorem cex_ttk : cmTurnsToKill cexEquipState cexMeta = 8 := by
  rw [cmTurnsToKill_eq_ceil, cex_atk]
  have hb : cexEquipState.beast.health = 30 := rfl
  rw [hb, cex_hcz8]

theorem cex_inc : estimateBeastDamagePerHit cexEquipState cexMeta = 15 := by
  have hfz15 : ⌊(63 : ℚ) / 4⌋ = 15 := by
    rw [Int.floor_eq_iff] <;> norm_num
  simp only [estimateBeastDamagePerHit, cexEquipState, baseState, emptyEquipment,
    Equipment.get, armorSlotNames, beastTierFromId, beastTypeFromId, jsMod,
    elementalMultiplier, tierMultiplier, clampInt, jewelryArmorBonus,
    MINIMUM_DAMAGE_FROM_BEASTS, jsFloor, min_def, max_def, List.map, List.sum,
    zeroStats, noBeast]
  have hs1 : ¬(("magic_or_cloth" : String) = "" ∨ ("magic_or_cloth" : String) = "none") := by
    simp
  norm_num [hfz15, hs1]

theorem cex_expFD : cmExpectedFightDamage cexEquipState cexMeta = 105 := by
  unfold cmExpectedFightDamage
  rw [cex_inc, cex_ttk]
  norm_num [max_def]

theorem cex_alt_atk :
    estimateAttackDamage { cexEquipState with equipment := cexEqC } cexMeta = 4 := rfl

theorem cex_alt_ttk :
    cmTurnsToKill { cexEquipState with equipment := cexEqC } cexMeta = 8 := by
  rw [cmTurnsToKill_eq_ceil, cex_alt_atk]
  have hb : ({ cexEquipState with equipment := cexEqC } : DerivedState).beast.health = 30 :=
    rfl
  rw [hb, cex_hcz8]

theorem cex_alt_inc :
    estimateBeastDamagePerHit { cexEquipState with equipment := cexEqC } cexMeta =
      62 / 5 := by
  have hfz15 : ⌊(63 : ℚ) / 4⌋ = 15 := by
    rw [Int.floor_eq_iff] <;> norm_num
  have hfzm5 : ⌊(-9 : ℚ) / 2⌋ = -5 := by
    rw [Int.floor_eq_iff] <;> norm_num
  have hfzm5b : ⌊-((9 : ℚ) / 2)⌋ = -5 := by
    rw [Int.floor_eq_iff] <;> norm_num
  simp only [estimateBeastDamagePerHit, cexEquipState, cexEqC, baseState, emptyEquipment,
    Equipment.get, armorSlotNames, beastTierFromId, beastTypeFromId, jsMod,
    elementalMultiplier, tierMultiplier, clampInt, jewelryArmorBonus, neckSupportsArmorType,
    MINIMUM_DAMAGE_FROM_BEASTS, jsFloor, min_def, max_def, List.map, List.sum,
    zeroStats, noBeast, cexMeta, baseCombatPower, greatnessFromXp, isqrt, isqrtFuel, qToNat]
  have hs1 : ¬(("magic_or_cloth" : String) = "" ∨ ("magic_or_cloth" : String) = "none") := by
    simp
  have hq : isqrtFuel 9 9 = 3 := by decide
  repeat (first
    | simp [hs1, hfz15, hfzm5, hfzm5b, hq]
    | norm_num [hfz15, hfzm5, hfzm5b, hs1, hq])

theorem cex_alt_expFD :
    cmExpectedFightDamage { cexEquipState with equipment := cexEqC } cexMeta = 434 / 5 := by
  unfold cmExpectedFightDamage
  rw [cex_alt_inc, cex_alt_ttk]
  norm_num [max_def]

theorem cex_cur_flee : cmShouldFlee cexEquipState cexMeta baseConfig = true := by
  apply cmShouldFlee_of_expected_damage
  · norm_num [cexEquipState, baseState]
  · rw [cex_expFD]
    norm_num [cexEquipState, baseState]
  · norm_num [cexEquipState, baseState]

theorem cex_alt_flee :
    cmShouldFlee { cexEquipState with equipment := cexEqC } cexMeta baseConfig = false := by
  unfold cmShouldFlee
  rw [if_neg, if_neg, if_neg, if_neg]
  · norm_num [cexEquipState, baseState, baseConfig, basePolicy]
  · rw [cex_alt_expFD]
    intro hc
    norm_num [cexEquipState, baseState] at hc
  · rw [cex_alt_ttk]
    intro hc
    norm_num [cexEquipState, baseState] at hc
  · intro hc
    norm_num [cexEquipState, baseState, baseConfig, basePolicy] at hc

theorem cex_equip_branch :
    decideCombatEquip cexEquipState baseConfig cexMeta true = some [100] := by
  unfold decideCombatEquip
  rw [if_pos]
  · dsimp only
    rw [cex_pick]
    dsimp only
    rw [if_pos (by norm_num : ¬([100] : List ℚ) = [] ∧ ([100] : List ℚ).length ≤ 8)]
    rw [cex_alt_inc, cex_alt_ttk, cex_expFD, cex_cur_flee, cex_alt_flee]
    rw [if_pos]
    constructor
    · norm_num [cexEquipState, baseState]
    · right
      refine ⟨rfl, by norm_num, ?_⟩
      norm_num [cexEquipState, baseState]
  · refine ⟨rfl, by norm_num [cexEquipState, baseState], ?_⟩
    norm_num [cexEquipState, baseState, baseConfig, basePolicy]

theorem cex_decide :
    decideChainAction cexEquipState baseConfig cexMeta true =
      ⟨.equip, .equipP [100]⟩ := by
  have h1 : ¬(cexEquipState.hp ≤ 0 ∧ cexEquipState.xp = 0) := by
    norm_num [cexEquipState, baseState]
  have h2 : ¬cexEquipState.hp ≤ 0 := by norm_num [cexEquipState, baseState]
  have hcz : cexEquipState.inCombat = true := rfl
  unfold decideChainAction
  rw [if_neg h1, if_neg h2, hcz]
  simp only [if_true]
  unfold decideCombat
  rw [cex_equip_branch]

theorem cexLow_atk : estimateAttackDamage cexLowState cexMeta = 4 := rfl

theorem cexLow_ttk : cmTurnsToKill cexLowState cexMeta = 8 := by
  rw [cmTurnsToKill_eq_ceil, cexLow_atk]
  have hb : cexLowState.beast.health = 30 := rfl
  rw [hb, cex_hcz8]

theorem cexLow_inc : estimateBeastDamagePerHit cexLowState cexMeta = 15 := by
  have hfz15 : ⌊(63 : ℚ) / 4⌋ = 15 := by
    rw [Int.floor_eq_iff] <;> norm_num
  simp only [estimateBeastDamagePerHit, cexLowState, baseState, emptyEquipment,
    Equipment.get, armorSlotNames, beastTierFromId, beastTypeFromId, jsMod,
    elementalMultiplier, tierMultiplier, clampInt, jewelryArmorBonus,
    MINIMUM_DAMAGE_FROM_BEASTS, jsFloor, min_def, max_def, List.map, List.sum,
    zeroStats, noBeast]
  have hs1 : ¬(("magic_or_cloth" : String) = "" ∨ ("magic_or_cloth" : String) = "none") := by
    simp
  norm_num [hfz15, hs1]

theorem cexLow_expFD : cmExpectedFightDamage cexLowState cexMeta = 105 := by
  unfold cmExpectedFightDamage
  rw [cexLow_inc, cexLow_ttk]
  norm_num [max_def]

theorem cexLow_flee : cmShouldFlee cexLowState cexMeta baseConfig = true := by
  unfold cmShouldFlee
  rw [if_neg, if_neg, if_neg, if_pos]
  · apply decide_eq_true
    right
    norm_num [cexLowState, baseState, baseConfig, basePolicy]
  · norm_num [cexLowState, baseState, baseConfig, basePolicy]
  · intro hc
    norm_num [cexLowState, baseState] at hc
  · intro hc
    norm_num [cexLowState, baseState] at hc
  · intro hc
    norm_num [cexLowState, baseState, baseConfig, basePolicy] at hc

theorem cexLow_decide :
    decideChainAction cexLowState baseConfig cexMeta true = ⟨.flee, .noPayload⟩ := by
  have h1 : ¬(cexLowState.hp ≤ 0 ∧ cexLowState.xp = 0) := by
    norm_num [cexLowState, baseState]
  have h2 : ¬cexLowState.hp ≤ 0 := by norm_num [cexLowState, baseState]
  have hcz : cexLowState.inCombat = true := rfl
  have hnone : decideCombatEquip cexLowState baseConfig cexMeta true = none := by
    unfold decideCombatEquip
    rw [if_neg]
    intro hc
    exact hc.2.1 rfl
  unfold decideChainAction
  rw [if_neg h1, if_neg h2, hcz]
  simp only [if_true]
  unfold decideCombat
  rw [hnone]
  simp only [cexLow_flee, if_true]

/-- Counterexample to C2 as stated: at `cexEquipState` the expected fight
damage exceeds `0.8 × hp` and `fleeChance ≥ 0.45`, yet `decideChainAction`
(with equip consideration on, as in the runner's combat path) returns `equip`
rather than `flee`; at `cexLowState` the same damage profile with
`fleeChance < 0.45` returns `flee` (critically low hp) rather than
`attack`. -/
theorem decideChainAction_combat_boundary_cex :
    (cexEquipState.inCombat = true ∧
        cexEquipState.hp * 0.8 < cmExpectedFightDamage cexEquipState cexMeta ∧
        0.45 ≤ cexEquipState.fleeChance ∧
        decideChainAction cexEquipState baseConfig cexMeta true =
          ⟨.equip, .equipP [100]⟩) ∧
      (cexLowState.inCombat = true ∧
        cexLowState.hp * 0.8 < cmExpectedFightDamage cexLowState cexMeta ∧
        cexLowState.fleeChance < 0.45 ∧
        decideChainAction cexLowState baseConfig cexMeta true =
          ⟨.flee, .noPayload⟩) := by
  refine ⟨⟨rfl, ?_, ?_, cex_decide⟩, ⟨rfl, ?_, ?_, cexLow_decide⟩⟩
  · rw [cex_expFD]
    norm_num [cexEquipState, baseState]
  · norm_num [cexEquipState, baseState]
  · rw [cexLow_expFD]
    norm_num [cexLowState, baseState]
  · norm_num [cexLowState, baseState]

/-- A slow fight with moderate flee chance (the amended flee half fires). -/
def fleeWitState : DerivedState := { fightState with fleeChance := 0.5 }

/-- The same fight with a poor flee chance and healthy hp (the amended
attack half fires). -/
def attackWitState : DerivedState := { fightState with fleeChance := 0.2 }

theorem fleeWit_atk : estimateAttackDamage fleeWitState emptyLootMeta = 4 := rfl

theorem fleeWit_ttk : cmTurnsToKill fleeWitState emptyLootMeta = 8 := by
  rw [cmTurnsToKill_eq_ceil, fleeWit_atk]
  have hb : fleeWitState.beast.health = 30 := rfl
  rw [hb, cex_hcz8]

theorem fleeWit_inc : estimateBeastDamagePerHit fleeWitState emptyLootMeta = 16 := by
  have hfz : ⌊(33 : ℚ) / 2⌋ = 16 := by
    rw [Int.floor_eq_iff] <;> norm_num
  simp only [estimateBeastDamagePerHit, fleeWitState, fightState, baseState,
    emptyEquipment, Equipment.get, armorSlotNames, beastTierFromId, beastTypeFromId,
    jsMod, elementalMultiplier, tierMultiplier, clampInt, jewelryArmorBonus,
    MINIMUM_DAMAGE_FROM_BEASTS, jsFloor, min_def, max_def, List.map, List.sum,
    zeroStats, noBeast]
  have hs1 : ¬(("magic_or_cloth" : String) = "" ∨ ("magic_or_cloth" : String) = "none") := by
    simp
  norm_num [hfz, hs1]

theorem fleeWit_expFD : cmExpectedFightDamage fleeWitState emptyLootMeta = 112 := by
  unfold cmExpectedFightDamage
  rw [fleeWit_inc, fleeWit_ttk]
  norm_num [max_def]

/-- Witness for C2 (amended): the flee half at `fleeWitState`, the attack
half at `attackWitState`. -/
theorem decideChainAction_combat_boundary_witness :
    decideChainAction fleeWitState baseConfig emptyLootMeta false =
        ⟨.flee, .noPayload⟩ ∧
      decideChainAction attackWitState baseConfig emptyLootMeta false =
        ⟨.attack, .noPayload⟩ :=
  ⟨(decideChainAction_combat_boundary fleeWitState baseConfig emptyLootMeta
      (by norm_num [fleeWitState, fightState, baseState]) rfl).1
      (by
        rw [fleeWit_expFD]
        norm_num [fleeWitState, fightState, baseState])
      (by norm_num [fleeWitState, fightState, baseState]),
    (decideChainAction_combat_boundary attackWitState baseConfig emptyLootMeta
      (by norm_num [attackWitState, fightState, baseState]) rfl).2
      (by norm_num [attackWitState, fightState, baseState])
      (by
        intro hc
        norm_num [attackWitState, fightState, baseState, baseConfig, basePolicy] at hc)
      (by
        intro hc
        norm_num [attackWitState, fightState, baseState, baseConfig, basePolicy] at hc)⟩

/-! ## C4: VRF backoff -/

/-- A fresh runner state, as constructed at session start. -/
def baseRunnerState : RunnerState :=
  { lastXp := none, lastActionCount := none, lastHp := none,
    awaitingActionCount := none, awaitingActionCountSince := 0,
    lastStateSyncLogAt := 0, lastProgressAt := 0, lastDeathHandledAt := 0,
    statUpgradeBlockedUntil := 0, statUpgradeBlockedActionCount := none,
    marketClosedBlockedUntil := 0, marketClosedBlockedActionCount := none,
    staleRecoveryAttempts := 0, vrfPendingBlockedUntil := 0,
    vrfPendingBlockedActionCount := none, vrfPendingAttempts := 0,
    vrfPendingSince := 0, vrfCircuitBreakUntil := 0, lastVrfWaitLogAt := 0,
    lastVrfAbandonAt := 0, humanBreakUntil := 0, nextHumanBreakAt := 0,
    nextSleepBreakAt := 0, deferredHumanBreaks := 0 }

/-- A pacing oracle whose sampled durations are all zero. -/
def baseOracle : PacingOracle :=
  { breakIntervalMs := 0, sleepIntervalMs := 0, sleepJitterMs := 0,
    breakDurationMs := 0, sleepDurationMs := 0 }

/-- Bumping the VRF block at the action count it already records increments
the attempt counter. -/
theorem blockVrfPending_attempts_same (rs : RunnerState) (ac now : ℚ)
    (h : rs.vrfPendingBlockedActionCount = some ac) :
    (blockVrfPending rs ac now).vrfPendingAttempts = rs.vrfPendingAttempts + 1 := by
  unfold blockVrfPending
  dsimp only
  rw [if_pos h]

/-- C4: each VRF-pending failure sets the block deadline `now + vrfBackoffMs n`
where `n` is the updated attempt counter; a consecutive failure at the same
action count increments the counter; a failure at a different action count
restarts it at 1; and the backoff interval is non-decreasing in the attempt
number and capped at 90 s. -/
theorem blockVrfPending_backoff (rs : RunnerState) (ac now now2 : ℚ) :
    (blockVrfPending rs ac now).vrfPendingBlockedUntil =
        now + vrfBackoffMs (blockVrfPending rs ac now).vrfPendingAttempts ∧
      (blockVrfPending (blockVrfPending rs ac now) ac now2).vrfPendingAttempts =
        (blockVrfPending rs ac now).vrfPendingAttempts + 1 ∧
      (rs.vrfPendingBlockedActionCount ≠ some ac →
        (blockVrfPending rs ac now).vrfPendingAttempts = 1) ∧
      (∀ n : ℕ, vrfBackoffMs n ≤ vrfBackoffMs (n + 1)) ∧
      (∀ n : ℕ, vrfBackoffMs n ≤ 90000) := by
  refine ⟨rfl, blockVrfPending_attempts_same _ ac now2 rfl, ?_, ?_, ?_⟩
  · intro h
    unfold blockVrfPending
    dsimp only
    rw [if_neg h]
  · intro n
    unfold vrfBackoffMs
    refine min_le_min le_rfl ?_
    have h2 : (2 : ℚ) ^ (n - 1) ≤ 2 ^ (n + 1 - 1) := by
      apply pow_le_pow_right₀ (by norm_num)
      omega
    nlinarith [h2]
  · intro n
    exact min_le_left _ _

/-- Witness for C4 at a fresh runner state, action count 3; explicit backoff
instances at attempts 2 and 9. -/
theorem blockVrfPending_backoff_witness :
    (blockVrfPending baseRunnerState 3 1000).vrfPendingBlockedUntil =
        1000 + vrfBackoffMs (blockVrfPending baseRunnerState 3 1000).vrfPendingAttempts ∧
      (blockVrfPending (blockVrfPending baseRunnerState 3 1000) 3 2000).vrfPendingAttempts =
        (blockVrfPending baseRunnerState 3 1000).vrfPendingAttempts + 1 ∧
      (blockVrfPending baseRunnerState 3 1000).vrfPendingAttempts = 1 ∧
      vrfBackoffMs 2 ≤ vrfBackoffMs 3 ∧
      vrfBackoffMs 9 ≤ 90000 := by
  obtain ⟨h1, h2, h3, h4, h5⟩ := blockVrfPending_backoff baseRunnerState 3 1000 2000
  exact ⟨h1, h2, h3 (by simp [baseRunnerState]), h4 2, h5 9⟩

/-! ## C3: settlement wait vs. the stale-progress watchdog -/

/-- Milestone tracking never touches the settlement-wait expectation. -/
theorem trackMilestones_awaiting (rs : RunnerState) (s : DerivedState) (now : ℚ) :
    (trackMilestones rs s now).awaitingActionCount = rs.awaitingActionCount ∧
      (trackMilestones rs s now).awaitingActionCountSince =
        rs.awaitingActionCountSince := by
  unfold trackMilestones
  dsimp only
  constructor <;> (repeat (first | rfl | split))

/-- While the expected action count has not appeared and the wait is within
the 25 s window, `maybeWaitForStateSync` returns early (no timeout) and feeds
the stale-progress watchdog. -/
theorem maybeWaitForStateSync_waiting (rs : RunnerState) (s : DerivedState)
    (now N : ℚ)
    (hawait : rs.awaitingActionCount = some (N + 1))
    (hobs : s.actionCount ≤ N)
    (htime : now - rs.awaitingActionCountSince ≤ stateSyncMaxWaitMs) :
    (maybeWaitForStateSync rs s now).returnedEarly = true ∧
      (maybeWaitForStateSync rs s now).syncTimedOut = false ∧
      (maybeWaitForStateSync rs s now).rs.lastProgressAt = now := by
  unfold maybeWaitForStateSync
  rw [hawait]
  dsimp only
  rw [if_neg (by push_neg; linarith : ¬s.actionCount ≥ N + 1)]
  split
  · split
    · rename_i hgt
      exfalso
      linarith
    · exact ⟨rfl, rfl, rfl⟩
  · split
    · rename_i hgt
      exfalso
      norm_num [stateSyncMaxWaitMs] at hgt
    · exact ⟨rfl, rfl, rfl⟩

/-- Past the 25 s window (with a recorded wait start), `maybeWaitForStateSync`
stops returning early and flags the dedicated settlement-wait timeout. -/
theorem maybeWaitForStateSync_timeout (rs : RunnerState) (s : DerivedState)
    (now N : ℚ)
    (hawait : rs.awaitingActionCount = some (N + 1))
    (hobs : s.actionCount ≤ N)
    (hsince : rs.awaitingActionCountSince ≠ 0)
    (htime : stateSyncMaxWaitMs < now - rs.awaitingActionCountSince) :
    (maybeWaitForStateSync rs s now).returnedEarly = false ∧
      (maybeWaitForStateSync rs s now).syncTimedOut = true := by
  unfold maybeWaitForStateSync
  rw [hawait]
  dsimp only
  rw [if_neg (by push_neg; linarith : ¬s.actionCount ≥ N + 1)]
  have hgt : (if rs.awaitingActionCountSince ≠ 0 then now - rs.awaitingActionCountSince
      else 0) > stateSyncMaxWaitMs := by
    rw [if_pos hsince]
    exact htime
  rw [if_pos hgt]
  exact ⟨rfl, rfl⟩

/-- The post-settlement-wait guard cascade never classifies as a settlement
wait itself, and it propagates the settlement-timeout flag unchanged. -/
theorem stepTail_not_waitSync (config : RunnerConfig) (o : PacingOracle)
    (rs00 : RunnerState) (s : DerivedState) (now : ℚ) (b : Bool) :
    (stepTail config o rs00 s now b).outcome ≠ .waitSync ∧
      (stepTail config o rs00 s now b).syncTimedOut = b := by
  unfold stepTail
  dsimp only
  repeat' split
  all_goals simp

/-- C3: while the runner still awaits a confirmed write's expected action
count `N + 1` and every observed `actionCount` is `≤ N`, a step within the
25 s settlement-wait window classifies as a settlement wait — never as
stale-progress recovery — and re-feeds the watchdog (`lastProgressAt := now`),
no matter how much wall-clock time has passed since the last progress; only
once the dedicated settlement-wait timeout is exceeded does the step fall
through, flagged `syncTimedOut`. -/
theorem stepClassify_settlement_wait (config : RunnerConfig) (o : PacingOracle)
    (rs : RunnerState) (s : DerivedState) (now N : ℚ)
    (hawait : rs.awaitingActionCount = some (N + 1))
    (hobs : s.actionCount ≤ N) :
    (now - rs.awaitingActionCountSince ≤ stateSyncMaxWaitMs →
        (stepClassify config o rs s now).outcome = .waitSync ∧
          (stepClassify config o rs s now).outcome ≠ .staleRecovery ∧
          (stepClassify config o rs s now).syncTimedOut = false ∧
          (stepClassify config o rs s now).rs.lastProgressAt = now) ∧
      (rs.awaitingActionCountSince ≠ 0 →
        stateSyncMaxWaitMs < now - rs.awaitingActionCountSince →
        (stepClassify config o rs s now).outcome ≠ .waitSync ∧
          (stepClassify config o rs s now).syncTimedOut = true) := by
  have hA : (trackMilestones rs s now).awaitingActionCount = some (N + 1) := by
    rw [(trackMilestones_awaiting rs s now).1]
    exact hawait
  have hS : (trackMilestones rs s now).awaitingActionCountSince =
      rs.awaitingActionCountSince := (trackMilestones_awaiting rs s now).2
  constructor
  · intro htime
    obtain ⟨h1, h2, h3⟩ := maybeWaitForStateSync_waiting (trackMilestones rs s now)
      s now N hA hobs (by rw [hS]; exact htime)
    unfold stepClassify
    dsimp only
    rw [h1, if_pos rfl]
    exact ⟨rfl, by simp, rfl, h3⟩
  · intro hsince htime
    obtain ⟨h1, h2⟩ := maybeWaitForStateSync_timeout (trackMilestones rs s now)
      s now N hA hobs (by rw [hS]; exact hsince) (by rw [hS]; exact htime)
    unfold stepClassify
    dsimp only
    rw [h1, if_neg Bool.false_ne_true]
    exact ⟨(stepTail_not_waitSync _ _ _ _ _ _).1,
      ((stepTail_not_waitSync _ _ _ _ _ _).2).trans h2⟩

/-- Fresh runner state right after a write confirmed with expected action
count 8, recorded at t = 1000 ms. -/
def syncRS : RunnerState := setAwaitingActionCount baseRunnerState 8 1000

/-- A live state still reporting the pre-write action count 7. -/
def syncS : DerivedState := { baseState with hp := 50, actionCount := 7 }

/-- Witness for C3: within the window (t = 20 s) the step is a settlement
wait feeding the watchdog; past it (t = 30 s) the settlement timeout fires. -/
theorem stepClassify_settlement_wait_witness :
    ((stepClassify baseConfig baseOracle syncRS syncS 20000).outcome = .waitSync ∧
        (stepClassify baseConfig baseOracle syncRS syncS 20000).rs.lastProgressAt =
          20000) ∧
      (stepClassify baseConfig baseOracle syncRS syncS 30000).syncTimedOut = true := by
  obtain ⟨hw, _, _, hp⟩ := (stepClassify_settlement_wait baseConfig baseOracle syncRS
      syncS 20000 7 (by norm_num [syncRS, setAwaitingActionCount, baseRunnerState])
      (by norm_num [syncS, baseState])).1
    (by norm_num [syncRS, setAwaitingActionCount, baseRunnerState, stateSyncMaxWaitMs])
  refine ⟨⟨hw, hp⟩, ?_⟩
  exact ((stepClassify_settlement_wait baseConfig baseOracle syncRS syncS 30000 7
      (by norm_num [syncRS, setAwaitingActionCount, baseRunnerState])
      (by norm_num [syncS, baseState])).2
    (by norm_num [syncRS, setAwaitingActionCount, baseRunnerState])
    (by norm_num [syncRS, setAwaitingActionCount, baseRunnerState,
      stateSyncMaxWaitMs])).2

/-! ## C8: the market-closed block -/

/-- With an empty market the policy can never choose a market action. -/
theorem decideChainAction_no_market (s : DerivedState) (config : RunnerConfig)
    (lm : LootMetaMap) (ce : Bool) (h : s.market = []) :
    (decideChainAction s config lm ce).type ≠ .buyPotions ∧
      (decideChainAction s config lm ce).type ≠ .buyItems := by
  unfold decideChainAction
  dsimp only
  split
  · simp
  · split
    · simp
    · split
      · rcases decideCombat_type s config lm ce with hc | hc | hc <;> simp [hc]
      · split
        · simp
        · rw [h]
          rw [if_neg (by norm_num : ¬(List.length (α := ℚ) [] > 0))]
          dsimp only
          rcases hd : decideEquipTail s config lm ce with _ | items
          · simp [hd, decideExplore]
          · simp [hd]

/-- Milestone tracking never touches the market-closed block. -/
theorem trackMilestones_market (rs : RunnerState) (s : DerivedState) (now : ℚ) :
    (trackMilestones rs s now).marketClosedBlockedActionCount =
        rs.marketClosedBlockedActionCount ∧
      (trackMilestones rs s now).marketClosedBlockedUntil =
        rs.marketClosedBlockedUntil := by
  unfold trackMilestones
  dsimp only
  constructor <;> (repeat (first | rfl | split))

/-- The settlement wait never touches the market-closed block. -/
theorem maybeWaitForStateSync_market (rs : RunnerState) (s : DerivedState)
    (now : ℚ) :
    (maybeWaitForStateSync rs s now).rs.marketClosedBlockedActionCount =
        rs.marketClosedBlockedActionCount ∧
      (maybeWaitForStateSync rs s now).rs.marketClosedBlockedUntil =
        rs.marketClosedBlockedUntil := by
  unfold maybeWaitForStateSync clearAwaitingActionCount
  dsimp only
  constructor <;> (repeat (first | rfl | split))

/-- Death handling never touches the market-closed block. -/
theorem handleDeath_market (config : RunnerConfig) (rs : RunnerState)
    (s : DerivedState) (now : ℚ) :
    (handleDeath config rs s now).2.marketClosedBlockedActionCount =
        rs.marketClosedBlockedActionCount ∧
      (handleDeath config rs s now).2.marketClosedBlockedUntil =
        rs.marketClosedBlockedUntil := by
  unfold handleDeath clearVrfPendingBlock clearAwaitingActionCount
  dsimp only
  constructor <;> (repeat (first | rfl | split))

/-- Break pacing never touches the market-closed block. -/
theorem maybeTakeHumanBreak_market (config : RunnerConfig) (o : PacingOracle)
    (rs : RunnerState) (s : DerivedState) (now : ℚ) :
    (maybeTakeHumanBreak config o rs s now).2.marketClosedBlockedActionCount =
        rs.marketClosedBlockedActionCount ∧
      (maybeTakeHumanBreak config o rs s now).2.marketClosedBlockedUntil =
        rs.marketClosedBlockedUntil := by
  have hbs : (breakSchedule config o rs now).marketClosedBlockedActionCount =
      rs.marketClosedBlockedActionCount ∧
      (breakSchedule config o rs now).marketClosedBlockedUntil =
        rs.marketClosedBlockedUntil := by
    unfold breakSchedule
    dsimp only
    constructor <;> (repeat (first | rfl | split))
  unfold maybeTakeHumanBreak
  dsimp only
  constructor <;>
    (repeat (first | rfl | exact hbs.1 | exact hbs.2 | split))

/-- While the observed action count equals the blocked one, block expiry
keeps the market-closed block intact. -/
theorem expireBlocks_market (rs : RunnerState) (s : DerivedState)
    (hmc : rs.marketClosedBlockedActionCount = some s.actionCount) :
    (expireBlocks rs s).marketClosedBlockedActionCount = some s.actionCount ∧
      (expireBlocks rs s).marketClosedBlockedUntil =
        rs.marketClosedBlockedUntil := by
  unfold expireBlocks
  dsimp only
  refine ⟨?_, ?_⟩ <;>
    · repeat' split
      all_goals simp_all [clearStatUpgradeBlock, clearMarketClosedBlock,
        clearVrfPendingBlock]

/-- An `act` outcome of the post-settlement cascade, taken while the
market-closed block matches the observed action count and is within its
deadline, hands the policy the market-blanked state. -/
theorem stepTail_act_market (config : RunnerConfig) (o : PacingOracle)
    (rs00 : RunnerState) (s : DerivedState) (now : ℚ) (b : Bool)
    (sp : DerivedState)
    (hmc : rs00.marketClosedBlockedActionCount = some s.actionCount)
    (hwin : now < rs00.marketClosedBlockedUntil)
    (hact : (stepTail config o rs00 s now b).outcome = .act sp) :
    sp = { s with market := [] } := by
  have hm1 := expireBlocks_market rs00 s hmc
  have hm2 := handleDeath_market config (expireBlocks rs00 s) s now
  have hm3 := maybeTakeHumanBreak_market config o
    (handleDeath config (expireBlocks rs00 s) s now).2 s now
  have hb : shouldBlockMarketClosed
      (maybeTakeHumanBreak config o
        (handleDeath config (expireBlocks rs00 s) s now).2 s now).2 s now = true := by
    unfold shouldBlockMarketClosed
    rw [hm3.1, hm2.1, hm1.1]
    refine decide_eq_true ⟨rfl, ?_⟩
    rw [hm3.2, hm2.2, hm1.2]
    exact hwin
  unfold stepTail at hact
  dsimp only at hact
  repeat' split at hact
  all_goals first
    | exact StepOutcome.noConfusion hact
    | exact absurd hb (by assumption)
    | exact (StepOutcome.act.inj hact).symm

/-- Same as `stepTail_act_market`, lifted over the settlement wait: the
property holds of a whole classified step. -/
theorem stepClassify_act_market (config : RunnerConfig) (o : PacingOracle)
    (rs0 : RunnerState) (s : DerivedState) (now : ℚ) (sp : DerivedState)
    (hmc : rs0.marketClosedBlockedActionCount = some s.actionCount)
    (hwin : now < rs0.marketClosedBlockedUntil)
    (hact : (stepClassify config o rs0 s now).outcome = .act sp) :
    sp = { s with market := [] } := by
  unfold stepClassify at hact
  dsimp only at hact
  split at hact
  · exact StepOutcome.noConfusion hact
  · refine stepTail_act_market config o _ s now _ sp ?_ ?_ hact
    · rw [(maybeWaitForStateSync_market _ s now).1,
        (trackMilestones_market rs0 s now).1]
      exact hmc
    · rw [(maybeWaitForStateSync_market _ s now).2,
        (trackMilestones_market rs0 s now).2]
      exact hwin

/-- C8 (amended): a "market is closed" failure at action count `ac`, time
`t`, records a block on `ac` expiring at `t + 60000`.  While the observed
action count still equals `ac` and fewer than 60 s have elapsed, any step
that reaches the decision hands the engine the market-blanked state, so
neither `buyPotions` nor `buyItems` can be chosen; at a different action
count or past the deadline the guard is inactive, and once the action count
moves past `ac` the block is dropped entirely — market actions re-enable
automatically.  (Unamended, the claim promised exclusion for the whole
remainder of the action count; the 60 s lapse falsifies that — see the
counterexample.) -/
theorem marketClosed_block_spec (rs : RunnerState) (ac t : ℚ) :
    (blockMarketClosed rs ac t).marketClosedBlockedActionCount = some ac ∧
      (blockMarketClosed rs ac t).marketClosedBlockedUntil = t + 60000 ∧
      (∀ (config : RunnerConfig) (o : PacingOracle) (s : DerivedState) (now : ℚ)
          (sp : DerivedState),
        s.actionCount = ac → now < t + 60000 →
        (stepClassify config o (blockMarketClosed rs ac t) s now).outcome =
          .act sp →
        sp.market = [] ∧
          ∀ (config2 : RunnerConfig) (lm : LootMetaMap) (ce : Bool),
            (decideChainAction sp config2 lm ce).type ≠ .buyPotions ∧
              (decideChainAction sp config2 lm ce).type ≠ .buyItems) ∧
      (∀ (s : DerivedState) (now : ℚ),
        s.actionCount ≠ ac ∨ t + 60000 ≤ now →
        shouldBlockMarketClosed (blockMarketClosed rs ac t) s now = false) ∧
      (∀ s : DerivedState, ac < s.actionCount →
        (expireBlocks (blockMarketClosed rs ac t) s).marketClosedBlockedActionCount =
          none) := by
  refine ⟨rfl, rfl, ?_, ?_, ?_⟩
  · intro config o s now sp hs hn hact
    have hsp := stepClassify_act_market config o (blockMarketClosed rs ac t) s now sp
      (by rw [hs]; rfl) hn hact
    subst hsp
    refine ⟨rfl, ?_⟩
    intro config2 lm ce
    exact decideChainAction_no_market _ config2 lm ce rfl
  · intro s now h
    unfold shouldBlockMarketClosed blockMarketClosed
    dsimp only
    refine decide_eq_false ?_
    rintro ⟨h1, h2⟩
    rcases h with h | h
    · exact h h1
    · exact absurd h2 (not_lt.mpr h)
  · intro s hs
    unfold expireBlocks blockMarketClosed clearStatUpgradeBlock
      clearMarketClosedBlock clearVrfPendingBlock
    dsimp only
    repeat' split
    all_goals try simp_all
    all_goals linarith

/-- `potionState` observed at the blocked action count 5. -/
def cexMarketState : DerivedState := { potionState with actionCount := 5 }

/-- C8 counterexample: a market-closed block taken at action count 5, time 0,
has lapsed by t = 61 s even though the action count is still 5 — the step
hands the policy the UNBLANKED state, whose nonempty market yields a
`buyPotions` decision.  "For the remainder of that action count" is false;
exclusion also ends after the 60 s deadline. -/
theorem marketClosed_block_cex :
    (blockMarketClosed baseRunnerState 5 0).marketClosedBlockedActionCount =
        some 5 ∧
      cexMarketState.actionCount = 5 ∧
      shouldBlockMarketClosed (blockMarketClosed baseRunnerState 5 0)
          cexMarketState 61000 = false ∧
      (stepClassify baseConfig baseOracle (blockMarketClosed baseRunnerState 5 0)
          cexMarketState 61000).outcome = .act cexMarketState ∧
      cexMarketState.market = [99] ∧
      (decideChainAction cexMarketState baseConfig emptyLootMeta true).type =
        .buyPotions := by
  refine ⟨rfl, rfl, ?_, ?_, rfl, ?_⟩
  · norm_num [shouldBlockMarketClosed, blockMarketClosed, baseRunnerState,
      cexMarketState, potionState, baseState]
  · norm_num [stepClassify, stepTail, expireBlocks, trackMilestones,
      maybeWaitForStateSync, handleDeath, shouldPauseForVrfCircuit,
      shouldWaitForVrf, maybeTakeHumanBreak, shouldBlockSelectStats,
      shouldBlockMarketClosed, clearStatUpgradeBlock, clearMarketClosedBlock,
      clearVrfPendingBlock, clearAwaitingActionCount, blockMarketClosed,
      baseRunnerState, baseOracle, baseConfig, basePolicy, cexMarketState,
      potionState, baseState, stateSyncMaxWaitMs]
  · have h : decideChainAction cexMarketState baseConfig emptyLootMeta true =
        ⟨.buyPotions, .potionsP 1⟩ := by
      norm_num [decideChainAction, decideMarket, marketPotionAction, potionCount,
        potionPrice, marketHealTargetPct, clampFloat, jsFloor, jsCeil,
        cexMarketState, potionState, baseState, baseConfig, basePolicy,
        Option.some_orElse', Int.floor_zero, Int.floor_one, Int.ceil_zero,
        Int.ceil_one, min_def, max_def, BASE_POTION_PRICE,
        CHARISMA_POTION_DISCOUNT, MINIMUM_POTION_PRICE, POTION_HEALTH_AMOUNT,
        zeroStats, noBeast, emptyEquipment, emptyLootMeta, lerp]
    rw [h]

/-- Witness for C8 (amended) at the blocked action count within the window:
the step blanks the market, excluding both market actions; and at action
count 6 the guard is off. -/
theorem marketClosed_block_spec_witness :
    ({ cexMarketState with market := ([] : List ℚ) }).market = ([] : List ℚ) ∧
      (decideChainAction { cexMarketState with market := ([] : List ℚ) }
          baseConfig emptyLootMeta true).type ≠ .buyPotions ∧
      (decideChainAction { cexMarketState with market := ([] : List ℚ) }
          baseConfig emptyLootMeta true).type ≠ .buyItems ∧
      shouldBlockMarketClosed (blockMarketClosed baseRunnerState 5 0)
        { cexMarketState with actionCount := 6 } 1000 = false := by
  have hact : (stepClassify baseConfig baseOracle
      (blockMarketClosed baseRunnerState 5 0) cexMarketState 1000).outcome =
      .act { cexMarketState with market := [] } := by
    norm_num [stepClassify, stepTail, expireBlocks, trackMilestones,
      maybeWaitForStateSync, handleDeath, shouldPauseForVrfCircuit,
      shouldWaitForVrf, maybeTakeHumanBreak, shouldBlockSelectStats,
      shouldBlockMarketClosed, clearStatUpgradeBlock, clearMarketClosedBlock,
      clearVrfPendingBlock, clearAwaitingActionCount, blockMarketClosed,
      baseRunnerState, baseOracle, baseConfig, basePolicy, cexMarketState,
      potionState, baseState, stateSyncMaxWaitMs]
  obtain ⟨h1, h2, h3, h4, h5⟩ := marketClosed_block_spec baseRunnerState 5 0
  obtain ⟨hm, hnb⟩ := h3 baseConfig baseOracle cexMarketState 1000
    { cexMarketState with market := [] } rfl (by norm_num) hact
  obtain ⟨hb1, hb2⟩ := hnb baseConfig emptyLootMeta true
  exact ⟨hm, hb1, hb2, h4 { cexMarketState with actionCount := 6 } 1000
    (Or.inl (by norm_num [cexMarketState, potionState, baseState]))⟩

end Ygg
